import Mathlib

/-!
# uBarrier input-server device: event translation and connection supervision

A shallow embedding of `uBarrierInputServerDevice` (src/haiku-ubarrier.cpp).

* Function-local `static` variables of `MouseCallback` and `KeyboardCallback`
  become explicit state records that are threaded through the calls.
* `system_time()` is an input of each call (microseconds, as a `uint64` value).
* A message handed to `EnqueueMessage` is an emitted event; the list of events
  a call returns is in emission order.  Building a `BMessage` and adding fields
  to it is taken to succeed (it only fails when memory is exhausted).
* Fixed-width machine integers are `Nat`/`Int` with explicit reduction.
* `ATKeymap.h` (the two key tables), the host modifier constants and the key
  layout resolver `BKeymap::GetChars` are not part of the sources; they are
  parameters of the model.
* Results of kernel and host calls (`spawn_thread`, `resume_thread`,
  `BClipboard::Lock`, `BClipboard::Commit`) are inputs of the method that makes
  them.  The host clipboard is a record of the fields of its data message.
* The worker thread is followed through a state machine whose steps are the
  three supervisor methods and the exit of a worker.
-/

namespace UBarrier

/-! ## Machine integers -/

/-- Truncation to `uint8`. -/
def u8 (n : Nat) : Nat := n % 2 ^ 8

/-- Truncation to `uint16`. -/
def u16 (n : Nat) : Nat := n % 2 ^ 16

/-- Truncation to `uint32`. -/
def u32 (n : Nat) : Nat := n % 2 ^ 32

/-- Subtraction of `uint64` values (`timestamp - oldWhen`, wrapping). -/
def sub64 (a b : Nat) : Nat := (a % 2 ^ 64 + 2 ^ 64 - b % 2 ^ 64) % 2 ^ 64

/-- Bitwise complement of a `uint32` value (the C operator `~`). -/
def not32 (n : Nat) : Nat := 2 ^ 32 - 1 - n % 2 ^ 32

/-- Logical negation of an integer (the C operator `!`): 1 for zero, else 0. -/
def lnot (n : Nat) : Nat := if n = 0 then 1 else 0

/-- The constant `UBARRIER_TRUE`. -/
def UBARRIER_TRUE : Int := 1

/-- The constant `UBARRIER_FALSE`. -/
def UBARRIER_FALSE : Int := 0

/-! ## Events -/

/-- Message codes of the four keyboard messages. -/
inductive KeyWhat
  | B_KEY_DOWN
  | B_KEY_UP
  | B_UNMAPPED_KEY_DOWN
  | B_UNMAPPED_KEY_UP
  deriving DecidableEq, Repr

/-- Messages passed to `EnqueueMessage`.  Mouse positions are kept as the raw
coordinates `x`, `y`; the message holds their quotient by the client width and
height, which are constants of the device. -/
inductive Event
  | mouseDown (stamp buttons x y clicks : Nat)
  | mouseUp (stamp buttons x y : Nat)
  | mouseMoved (stamp buttons x y : Nat)
  | mouseWheel (stamp : Nat) (deltaX deltaY : Int)
  | modifiersChanged (stamp oldModifiers modifiers : Nat) (states : List Nat)
  | key (what : KeyWhat) (stamp keycode modifiers : Nat) (states : List Nat)
      (bytes : List Nat) (keyRepeat : Option Nat) (rawChar : Option Nat)
  deriving DecidableEq, Repr

/-- A press or release message (`B_MOUSE_DOWN` or `B_MOUSE_UP`). -/
def Event.isButton : Event → Bool
  | .mouseDown .. => true
  | .mouseUp .. => true
  | _ => false

/-- A `B_MOUSE_MOVED` message. -/
def Event.isMove : Event → Bool
  | .mouseMoved .. => true
  | _ => false

/-- A `B_MOUSE_WHEEL_CHANGED` message. -/
def Event.isWheel : Event → Bool
  | .mouseWheel .. => true
  | _ => false

/-- A `B_MODIFIERS_CHANGED` message. -/
def Event.isModifiers : Event → Bool
  | .modifiersChanged .. => true
  | _ => false

/-- A key-down, key-up or unmapped-key message. -/
def Event.isKey : Event → Bool
  | .key .. => true
  | _ => false

/-! ## MouseCallback -/

/-- The static variables of `MouseCallback`. -/
structure MouseState where
  oldButtons : Nat
  oldPressedButtons : Nat
  oldX : Nat
  oldY : Nat
  clicks : Nat
  oldWheelX : Int
  oldWheelY : Int
  oldWhen : Nat
  deriving DecidableEq, Repr

/-- Values of the static variables when `MouseCallback` is first entered;
`oldWhen` is initialised from `system_time()`, here `t0`. -/
def MouseState.init (t0 : Nat) : MouseState :=
  { oldButtons := 0, oldPressedButtons := 0, oldX := 0, oldY := 0, clicks := 0,
    oldWheelX := 0, oldWheelY := 0, oldWhen := t0 }

/-- One invocation of `MouseCallback`: the arguments and the value returned by
`system_time()` during the call. -/
structure MouseCall where
  timestamp : Nat
  x : Nat
  y : Nat
  wheelX : Int
  wheelY : Int
  buttonLeft : Int
  buttonRight : Int
  buttonMiddle : Int
  deriving DecidableEq, Repr

/-- The local `buttons` mask built from the three button arguments. -/
def MouseCall.buttons (c : MouseCall) : Nat :=
  let b0 := if c.buttonLeft = UBARRIER_TRUE then (0 ||| 1 <<< 0) else 0
  let b1 := if c.buttonRight = UBARRIER_TRUE then (b0 ||| 1 <<< 1) else b0
  if c.buttonMiddle = UBARRIER_TRUE then (b1 ||| 1 <<< 2) else b1

/-- Button block of `MouseCallback` (`if (buttons != oldButtons) ...`). -/
def mouseButtonStep (s : MouseState) (c : MouseCall) : MouseState × List Event :=
  let buttons := c.buttons
  if buttons ≠ s.oldButtons then
    let pressedButton := decide (buttons > 0)
    if pressedButton then
      let clicks :=
        if buttons = s.oldPressedButtons ∧ sub64 c.timestamp s.oldWhen < 500000 then
          u16 (s.clicks + 1)
        else 1
      ({ s with clicks := clicks, oldWhen := c.timestamp,
                oldPressedButtons := buttons, oldButtons := buttons },
       [Event.mouseDown c.timestamp buttons c.x c.y clicks])
    else
      ({ s with clicks := 1, oldButtons := buttons },
       [Event.mouseUp c.timestamp buttons c.x c.y])
  else (s, [])

/-- Position block of `MouseCallback` (`if ((x != oldX) || (y != oldY)) ...`). -/
def mouseMoveStep (s : MouseState) (c : MouseCall) : MouseState × List Event :=
  if c.x ≠ s.oldX ∨ c.y ≠ s.oldY then
    ({ s with oldX := c.x, oldY := c.y },
     [Event.mouseMoved c.timestamp c.buttons c.x c.y])
  else (s, [])

/-- Wheel block of `MouseCallback` (`if (wheelX != 0 || wheelY != 0) ...`). -/
def mouseWheelStep (s : MouseState) (c : MouseCall) : MouseState × List Event :=
  if c.wheelX ≠ 0 ∨ c.wheelY ≠ 0 then
    ({ s with oldWheelX := c.wheelX, oldWheelY := c.wheelY },
     [Event.mouseWheel c.timestamp (Int.tdiv (s.oldWheelX - c.wheelX) 120)
        (Int.tdiv (s.oldWheelY - c.wheelY) 120)])
  else (s, [])

/-- The method `uBarrierInputServerDevice::MouseCallback`. -/
def MouseCallback (s : MouseState) (c : MouseCall) : MouseState × List Event :=
  let r1 := mouseButtonStep s c
  let r2 := mouseMoveStep r1.1 c
  let r3 := mouseWheelStep r2.1 c
  (r3.1, r1.2 ++ r2.2 ++ r3.2)

/-- State after a sequence of `MouseCallback` calls. -/
def mouseRun (s : MouseState) : List MouseCall → MouseState
  | [] => s
  | c :: cs => mouseRun (MouseCallback s c).1 cs

/-- Timestamps never decrease along the sequence, starting at `t0`. -/
def nonDecreasing (t0 : Nat) : List MouseCall → Prop
  | [] => True
  | c :: cs => t0 ≤ c.timestamp ∧ nonDecreasing c.timestamp cs

/-! ### Trace-level notions used by the click rule -/

/-- Button mask of the last call of a sequence (`prev` when it is empty). -/
def lastMask (prev : Nat) : List MouseCall → Nat
  | [] => prev
  | c :: cs => lastMask c.buttons cs

/-- The most recent press of a sequence, as (mask, time).  A call is a press
when its mask is non-zero and differs from the mask of the call before it. -/
def lastPress (prev : Nat) (acc : Option (Nat × Nat)) : List MouseCall → Option (Nat × Nat)
  | [] => acc
  | c :: cs =>
    if c.buttons ≠ prev ∧ c.buttons > 0 then lastPress c.buttons (some (c.buttons, c.timestamp)) cs
    else lastPress c.buttons acc cs

/-- Click count of a press as the specification words it: reset to 1 when the
mask differs from the previously pressed mask or the previous press was more
than 500 ms (500000 microseconds) earlier, otherwise one more than before. -/
def clickRuleStated (previous : Option (Nat × Nat)) (count mask now : Nat) : Nat :=
  match previous with
  | none => 1
  | some (m, t) => if mask ≠ m ∨ now - t > 500000 then 1 else count + 1

/-- Relation between the static variables and the calls seen so far: `prev`
is the mask of the last call and `acc` the most recent press. -/
def MouseInv (s : MouseState) (prev : Nat) (acc : Option (Nat × Nat)) : Prop :=
  s.oldButtons = prev ∧
  (prev ≠ 0 → s.oldPressedButtons = prev) ∧
  (prev = 0 → s.oldPressedButtons ≠ 0 → s.clicks = 1) ∧
  (match acc with
   | none => s.oldPressedButtons = 0
   | some (m, t) => s.oldPressedButtons = m ∧ s.oldWhen = t ∧ m ≠ 0)

/-- The most recent wheel values among the calls that had a non-zero wheel
axis (`acc` when there is none). -/
def lastWheel (acc : Int × Int) : List MouseCall → Int × Int
  | [] => acc
  | c :: cs => lastWheel (if c.wheelX ≠ 0 ∨ c.wheelY ≠ 0 then (c.wheelX, c.wheelY) else acc) cs

/-- A call at time `t` with only the left button down, at the origin. -/
def leftDownAt (t : Nat) : MouseCall :=
  { timestamp := t, x := 0, y := 0, wheelX := 0, wheelY := 0,
    buttonLeft := UBARRIER_TRUE, buttonRight := UBARRIER_FALSE, buttonMiddle := UBARRIER_FALSE }

/-- A call at time `t` with no button down, at the origin. -/
def allUpAt (t : Nat) : MouseCall :=
  { timestamp := t, x := 0, y := 0, wheelX := 0, wheelY := 0,
    buttonLeft := UBARRIER_FALSE, buttonRight := UBARRIER_FALSE, buttonMiddle := UBARRIER_FALSE }

/-- A call at time `t` that only reports wheel values. -/
def wheelAt (t : Nat) (wheelX wheelY : Int) : MouseCall :=
  { timestamp := t, x := 0, y := 0, wheelX := wheelX, wheelY := wheelY,
    buttonLeft := UBARRIER_FALSE, buttonRight := UBARRIER_FALSE, buttonMiddle := UBARRIER_FALSE }

/-! ## KeyboardCallback -/

/-- Remote modifier flag `UBARRIER_MODIFIER_SHIFT` (uBarrier.h). -/
def UBARRIER_MODIFIER_SHIFT : Nat := 0x0001

/-- Remote modifier flag `UBARRIER_MODIFIER_CTRL` (uBarrier.h). -/
def UBARRIER_MODIFIER_CTRL : Nat := 0x0002

/-- Remote modifier flag `UBARRIER_MODIFIER_ALT` (uBarrier.h). -/
def UBARRIER_MODIFIER_ALT : Nat := 0x0004

/-- Remote modifier flag `UBARRIER_MODIFIER_META` (uBarrier.h). -/
def UBARRIER_MODIFIER_META : Nat := 0x0008

/-- Remote modifier flag `UBARRIER_MODIFIER_WIN` (uBarrier.h). -/
def UBARRIER_MODIFIER_WIN : Nat := 0x0010

/-- Remote modifier flag `UBARRIER_MODIFIER_ALT_GR` (uBarrier.h). -/
def UBARRIER_MODIFIER_ALT_GR : Nat := 0x0020

/-- Remote modifier flag `UBARRIER_MODIFIER_CAPSLOCK` (uBarrier.h). -/
def UBARRIER_MODIFIER_CAPSLOCK : Nat := 0x1000

/-- Remote modifier flag `UBARRIER_MODIFIER_NUMLOCK` (uBarrier.h). -/
def UBARRIER_MODIFIER_NUMLOCK : Nat := 0x2000

/-- Remote modifier flag `UBARRIER_MODIFIER_SCROLLOCK` (uBarrier.h). -/
def UBARRIER_MODIFIER_SCROLLOCK : Nat := 0x4000

/-- The host's modifier bit constants used by `KeyboardCallback`.  They come
from the host's interface headers, which are not among the sources, so the
model takes them as a parameter. -/
structure ModifierKeys where
  B_SHIFT_KEY : Nat
  B_LEFT_SHIFT_KEY : Nat
  B_CONTROL_KEY : Nat
  B_LEFT_CONTROL_KEY : Nat
  B_COMMAND_KEY : Nat
  B_LEFT_COMMAND_KEY : Nat
  B_MENU_KEY : Nat
  B_OPTION_KEY : Nat
  B_LEFT_OPTION_KEY : Nat
  B_RIGHT_OPTION_KEY : Nat
  B_CAPS_LOCK : Nat
  B_NUM_LOCK : Nat
  B_SCROLL_LOCK : Nat

/-- What `KeyboardCallback` reads from the device and its surroundings: the
configured `server_keymap` string, the two key tables of `ATKeymap.h`, the
modifier constants and the key layout resolver (`fKeymap.GetChars`, which
yields the bytes a key code produces under a modifier mask). -/
structure KeyEnv where
  fServerKeymap : String
  kXKeycodeMap : List Nat
  kATKeycodeMap : List Nat
  keys : ModifierKeys
  GetChars : Nat → Nat → List Nat

/-- The static variables of `KeyboardCallback` together with the device field
`fModifiers`. -/
structure KeyState where
  lastScanCode : Nat
  repeatCount : Nat
  states : List Nat
  fModifiers : Nat
  deriving DecidableEq, Repr

/-- Values of the static variables when `KeyboardCallback` is first entered;
`fModifiers` holds the lock settings loaded by `_UpdateSettings`. -/
def KeyState.init (lockSettings : Nat) : KeyState :=
  { lastScanCode := 0, repeatCount := 1, states := List.replicate 16 0,
    fModifiers := lockSettings }

/-- One invocation of `KeyboardCallback`. -/
structure KeyCall where
  timestamp : Nat
  scancode : Nat
  _modifiers : Nat
  isKeyDown : Bool
  isKeyRepeat : Bool
  deriving DecidableEq, Repr

/-- Result of the table lookup of `KeyboardCallback`: the final value of the
local variable `scancode`, the key code, and two logs of what the lookup did:
the scan code values tested against the table bounds and the table indices
that were read, both in order. -/
structure KeyLookup where
  scancode : Nat
  keycode : Nat
  tried : List Nat
  reads : List Nat
  deriving DecidableEq, Repr

/-- The table lookup of `KeyboardCallback` for one table (the number of
entries `sizeof(table)/sizeof(uint32)` is the length of the list).  A table is
read at `scancode - 1` only under the bounds test, so the default of `getD` is
never used. -/
def lookupKeycode (table : List Nat) (scancode : Nat) : KeyLookup :=
  if scancode > 0 ∧ scancode < table.length then
    { scancode := scancode, keycode := table.getD (scancode - 1) 0,
      tried := [scancode], reads := [scancode - 1] }
  else
    let scancode1 := u8 (scancode ||| 0x80)
    if scancode1 > 0 ∧ scancode1 < table.length then
      { scancode := scancode1, keycode := table.getD (scancode1 - 1) 0,
        tried := [scancode, scancode1], reads := [scancode1 - 1] }
    else
      { scancode := scancode1, keycode := 0, tried := [scancode, scancode1], reads := [] }

/-- The table `KeyboardCallback` uses (`if (fServerKeymap == "X11") ...`). -/
def selectedTable (env : KeyEnv) : List Nat :=
  if env.fServerKeymap = "X11" then env.kXKeycodeMap else env.kATKeycodeMap

/-- The update of the 16-byte array `states` for a key code.  The key-up
branch is `states[keycode >> 3] &= (!(1 << (7 - (keycode & 0x7))))`, with the
logical operator `!`.  For a key code of 128 or more the index `keycode >> 3`
is 16 or more, past the end of the array; the model leaves the 16 bytes as
they are in that case. -/
def updateStates (states : List Nat) (keycode : Nat) (isKeyDown : Bool) : List Nat :=
  if keycode < 256 then
    if isKeyDown then
      states.set (keycode >>> 3)
        (u8 (states.getD (keycode >>> 3) 0 ||| (1 <<< (7 - (keycode &&& 0x7)))))
    else
      states.set (keycode >>> 3)
        (u8 (states.getD (keycode >>> 3) 0 &&& lnot (1 <<< (7 - (keycode &&& 0x7)))))
  else states

/-- The bit of the key-down bitmap that belongs to key code `k`
(byte `k >> 3`, bit `7 - (k & 7)`). -/
def keyBit (states : List Nat) (k : Nat) : Bool :=
  (states.getD (k >>> 3) 0).testBit (7 - (k &&& 0x7))

/-- The local variable `modifiers` computed from the remote flags. -/
def localModifiers (K : ModifierKeys) (_modifiers : Nat) : Nat :=
  let m0 : Nat := 0
  let m1 := if _modifiers &&& UBARRIER_MODIFIER_SHIFT ≠ 0 then
    u32 (m0 ||| (K.B_SHIFT_KEY ||| K.B_LEFT_SHIFT_KEY)) else m0
  let m2 := if _modifiers &&& UBARRIER_MODIFIER_CTRL ≠ 0 then
    u32 (m1 ||| (K.B_CONTROL_KEY ||| K.B_LEFT_CONTROL_KEY)) else m1
  let m3 := if _modifiers &&& UBARRIER_MODIFIER_ALT ≠ 0 then
    u32 (m2 ||| (K.B_COMMAND_KEY ||| K.B_LEFT_COMMAND_KEY)) else m2
  let m4 := if _modifiers &&& UBARRIER_MODIFIER_META ≠ 0 then
    u32 (m3 ||| K.B_MENU_KEY) else m3
  let m5 := if _modifiers &&& UBARRIER_MODIFIER_WIN ≠ 0 then
    u32 (m4 ||| (K.B_OPTION_KEY ||| K.B_LEFT_OPTION_KEY)) else m4
  let m6 := if _modifiers &&& UBARRIER_MODIFIER_ALT_GR ≠ 0 then
    u32 (m5 ||| (K.B_RIGHT_OPTION_KEY ||| K.B_OPTION_KEY)) else m5
  let m7 := if _modifiers &&& UBARRIER_MODIFIER_CAPSLOCK ≠ 0 then
    u32 (m6 ||| K.B_CAPS_LOCK) else m6
  let m8 := if _modifiers &&& UBARRIER_MODIFIER_NUMLOCK ≠ 0 then
    u32 (m7 ||| K.B_NUM_LOCK) else m7
  if _modifiers &&& UBARRIER_MODIFIER_SCROLLOCK ≠ 0 then
    u32 (m8 ||| K.B_SCROLL_LOCK) else m8

/-- Modifier block of `KeyboardCallback` (`if (!isKeyRepeat) ...`): the new
value of `fModifiers` and the message emitted, given the updated `states`. -/
def keyModifierStep (fModifiers : Nat) (states : List Nat) (modifiers : Nat)
    (c : KeyCall) : Nat × List Event :=
  if ¬ c.isKeyRepeat then
    if fModifiers ≠ modifiers then
      let modifiers1 :=
        if c.isKeyDown then u32 (modifiers ||| fModifiers)
        else u32 (modifiers &&& not32 fModifiers)
      (modifiers1, [Event.modifiersChanged c.timestamp fModifiers modifiers1 states])
    else (fModifiers, [])
  else (fModifiers, [])

/-- The tail of `KeyboardCallback` from `if (scancode == 0) return;` on: the
key message, the new `repeatCount` and the new `lastScanCode`. -/
def keyEventStep (env : KeyEnv) (s : KeyState) (scancode keycode : Nat)
    (c : KeyCall) : KeyState × List Event :=
  if scancode = 0 then (s, [])
  else
    let string := env.GetChars keycode s.fModifiers
    let rawString := env.GetChars keycode 0
    let numBytes := string.length
    let what :=
      if numBytes > 0 then
        (if c.isKeyDown then KeyWhat.B_KEY_DOWN else KeyWhat.B_KEY_UP)
      else
        (if c.isKeyDown then KeyWhat.B_UNMAPPED_KEY_DOWN else KeyWhat.B_UNMAPPED_KEY_UP)
    let rawString1 := if numBytes > 0 ∧ rawString.length = 0 then string else rawString
    let rawChar : Option Nat :=
      match rawString1 with
      | [] => none
      | b :: _ => some (u8 b &&& 0x7f)
    let repeatCount :=
      if numBytes > 0 then
        (if c.isKeyDown ∧ c.isKeyRepeat then u32 (s.repeatCount + 1) else 1)
      else s.repeatCount
    let keyRepeat : Option Nat :=
      if numBytes > 0 ∧ c.isKeyDown ∧ c.isKeyRepeat then some repeatCount else none
    ({ s with repeatCount := repeatCount,
              lastScanCode := if c.isKeyDown then scancode else 0 },
     [Event.key what c.timestamp keycode s.fModifiers s.states string keyRepeat rawChar])

/-- The method `uBarrierInputServerDevice::KeyboardCallback`. -/
def KeyboardCallback (env : KeyEnv) (s : KeyState) (c : KeyCall) : KeyState × List Event :=
  let r := lookupKeycode (selectedTable env) c.scancode
  let scancode := r.scancode
  let keycode := r.keycode
  let states := updateStates s.states keycode c.isKeyDown
  let modifiers := localModifiers env.keys c._modifiers
  let m := keyModifierStep s.fModifiers states modifiers c
  let s1 : KeyState := { s with states := states, fModifiers := m.1 }
  let k := keyEventStep env s1 scancode keycode c
  (k.1, m.2 ++ k.2)

/-- State after a sequence of `KeyboardCallback` calls. -/
def keyRun (env : KeyEnv) (s : KeyState) : List KeyCall → KeyState
  | [] => s
  | c :: cs => keyRun env (KeyboardCallback env s c).1 cs

/-- Key code that `KeyboardCallback` computes for a call. -/
def KeyCall.keycode (env : KeyEnv) (c : KeyCall) : Nat :=
  (lookupKeycode (selectedTable env) c.scancode).keycode

/-- Whether the most recent call of a sequence whose scan code mapped to `k`
was a key-down (`false` when no call mapped to `k`). -/
def lastWasDown (env : KeyEnv) (k : Nat) (calls : List KeyCall) : Bool :=
  match calls.reverse.find? (fun d => decide (d.keycode env = k)) with
  | some d => d.isKeyDown
  | none => false

/-- The host's modifier constants as the Haiku interface headers define them. -/
def haikuModifierKeys : ModifierKeys :=
  { B_SHIFT_KEY := 0x1, B_COMMAND_KEY := 0x2, B_CONTROL_KEY := 0x4,
    B_CAPS_LOCK := 0x8, B_SCROLL_LOCK := 0x10, B_NUM_LOCK := 0x20,
    B_OPTION_KEY := 0x40, B_MENU_KEY := 0x80, B_LEFT_SHIFT_KEY := 0x100,
    B_LEFT_COMMAND_KEY := 0x400, B_LEFT_CONTROL_KEY := 0x1000,
    B_LEFT_OPTION_KEY := 0x4000, B_RIGHT_OPTION_KEY := 0x8000 }

/-- Key code as the specification words the mapper: the entry for `s` when
`s` is within bounds, else the entry for `s OR 0x80` when that is within
bounds, else 0. -/
def lookupStated (table : List Nat) (s : Nat) : Nat :=
  if 0 < s ∧ s < table.length then table.getD (s - 1) 0
  else if 0 < (s ||| 0x80) ∧ (s ||| 0x80) < table.length then table.getD ((s ||| 0x80) - 1) 0
  else 0

/-- A key environment for examples: the default table is selected and its
entries for scan codes 1 to 4 are the key codes 0x01, 0x12, 0x13, 0x14 (Esc,
1, 2, 3 on an AT keyboard); no key resolves to characters. -/
def sampleKeyEnv : KeyEnv :=
  { fServerKeymap := "", kXKeycodeMap := [],
    kATKeycodeMap := [0x01, 0x12, 0x13, 0x14, 0x15],
    keys := haikuModifierKeys, GetChars := fun _ _ => [] }

/-- A non-repeat key call at time 0 with no remote modifier flag set. -/
def plainKey (scancode : Nat) (isKeyDown : Bool) : KeyCall :=
  { timestamp := 0, scancode := scancode, _modifiers := 0, isKeyDown := isKeyDown,
    isKeyRepeat := false }

/-! ## Start -/

/-- Status code `B_OK` (also `B_NO_ERROR`). -/
def B_OK : Int := 0

/-- The fields of the device that `Start` reads or writes, and whether the
device is subscribed to clipboard changes (`be_clipboard->StartWatching`). -/
structure Device where
  threadActive : Bool
  uBarrierThread : Int
  fEnableBarrier : Bool
  fServerAddress : String
  fServerKeymap : String
  fClientName : String
  fUpdateSettings : Bool
  fSocket : Int
  watching : Bool
  deriving DecidableEq, Repr

/-- Results of the two kernel calls `Start` makes: `spawn_thread` (a thread
id, or a negative status when no thread could be created) and
`resume_thread`. -/
structure StartEnv where
  spawnResult : Int
  resumeResult : Int
  deriving DecidableEq, Repr

/-- Outcome of a call of `Start`: the returned status, the device afterwards
and whether a worker thread was created by the call. -/
structure StartResult where
  status : Int
  device : Device
  spawned : Bool
  deriving DecidableEq, Repr

/-- The method `uBarrierInputServerDevice::Start`. -/
def Start (d : Device) (env : StartEnv) : StartResult :=
  if d.fServerAddress.length = 0 ∨ d.fEnableBarrier = false then
    { status := B_OK, device := d, spawned := false }
  else
    let old := d.threadActive
    let d1 := { d with threadActive := true }
    if old = true then
      { status := B_OK, device := d1, spawned := false }
    else
      let d2 := { d1 with uBarrierThread := env.spawnResult }
      if d2.uBarrierThread < 0 then
        { status := d2.uBarrierThread, device := { d2 with threadActive := false },
          spawned := false }
      else
        { status := env.resumeResult, device := { d2 with watching := true },
          spawned := true }

/-- A device with an enabled configuration and a server address; `running`
is the value of its running flag. -/
def sampleDevice (running : Bool) : Device :=
  { threadActive := running, uBarrierThread := 7, fEnableBarrier := true,
    fServerAddress := "192.168.1.2", fServerKeymap := "", fClientName := "haiku",
    fUpdateSettings := false, fSocket := -1, watching := running }

/-! ## Stop, SystemShuttingDown and the worker -/

/-- The method `uBarrierInputServerDevice::Stop`, as far as the device fields
go: the flag is cleared and the clipboard subscription dropped.  Its wait for
the worker (`wait_for_thread(uBarrierThread, ...)`) is part of `Machine.step`. -/
def Stop (d : Device) : Int × Device :=
  (B_OK, { d with threadActive := false, watching := false })

/-- The method `uBarrierInputServerDevice::SystemShuttingDown`. -/
def SystemShuttingDown (d : Device) : Int × Device :=
  (B_OK, { d with threadActive := false })

/-- The device together with the worker threads (`_MainLoop`) that have been
spawned and have not exited yet. -/
structure Machine where
  device : Device
  live : List Int
  deriving DecidableEq, Repr

/-- Steps of the supervisor state machine: the three methods and the exit of
a worker thread. -/
inductive Step
  | start (env : StartEnv)
  | stop
  | systemShuttingDown
  | workerExit (thread : Int)
  deriving DecidableEq, Repr

/-- A `SystemShuttingDown` step. -/
def Step.isShutdown : Step → Bool
  | .systemShuttingDown => true
  | _ => false

/-- The stopped state with no worker, for a given configuration. -/
def Machine.initial (d : Device) : Machine :=
  { device := { d with threadActive := false }, live := [] }

/-- A worker leaves `_MainLoop`: it is no longer alive and has released the
socket (`close(fSocket); fSocket = -1`). -/
def Machine.exitWorker (m : Machine) (thread : Int) : Machine :=
  { device := { m.device with fSocket := -1 }, live := m.live.erase thread }

/-- One step of the state machine.  `Start` adds the spawned thread to the
live workers.  `Stop` clears the flag and, when `uBarrierThread >= 0`, returns
only after that thread has exited.  `SystemShuttingDown` only clears the flag.
A worker exits by itself only when it reads the flag as false
(`while (inputDevice->threadActive)`). -/
def Machine.step (m : Machine) : Step → Machine
  | .start env =>
    let r := Start m.device env
    { device := r.device,
      live := if r.spawned then r.device.uBarrierThread :: m.live else m.live }
  | .stop =>
    let m1 : Machine := { m with device := (Stop m.device).2 }
    if m.device.uBarrierThread ≥ 0 ∧ m.device.uBarrierThread ∈ m.live then
      m1.exitWorker m.device.uBarrierThread
    else m1
  | .systemShuttingDown => { m with device := (SystemShuttingDown m.device).2 }
  | .workerExit thread =>
    if m.device.threadActive = false ∧ thread ∈ m.live then m.exitWorker thread else m

/-- State after a sequence of steps. -/
def Machine.run (m : Machine) : List Step → Machine
  | [] => m
  | st :: rest => Machine.run (m.step st) rest

/-- Every `Start` step of the sequence is taken in a state where the running
flag is set or no worker is alive. -/
def safeStarts (m : Machine) : List Step → Prop
  | [] => True
  | st :: rest =>
    (match st with
     | .start _ => m.device.threadActive = true ∨ m.live = []
     | _ => True) ∧ safeStarts (m.step st) rest

/-- Invariant of the machine without `SystemShuttingDown`: when the flag is
clear no worker is alive, and a live worker is the thread `uBarrierThread`. -/
def MachineInv (m : Machine) : Prop :=
  m.live = [] ∨ (m.device.threadActive = true ∧ m.live = [m.device.uBarrierThread] ∧
    m.device.uBarrierThread ≥ 0)

/-! ## ClipboardCallback -/

/-- The enumeration `uBarrierClipboardFormat` (uBarrier.h). -/
inductive uBarrierClipboardFormat
  | UBARRIER_CLIPBOARD_FORMAT_TEXT
  | UBARRIER_CLIPBOARD_FORMAT_BITMAP
  | UBARRIER_CLIPBOARD_FORMAT_HTML
  deriving DecidableEq, Repr

/-- The host clipboard `be_clipboard` as `ClipboardCallback` sees it: `data`
are the fields (name and bytes) of the clipboard's data message, `committed`
is the content last published by a successful `Commit`. -/
structure Clipboard where
  data : List (String × List Nat)
  committed : List (String × List Nat)
  deriving DecidableEq, Repr

/-- Host call `BClipboard::Clear`: the data message is emptied. -/
def Clipboard.Clear (c : Clipboard) : Clipboard := { c with data := [] }

/-- Host call `BMessage::AddData` on the clipboard's data message: a field
with the given name and bytes is added. -/
def Clipboard.AddData (c : Clipboard) (name : String) (bytes : List Nat) : Clipboard :=
  { c with data := c.data ++ [(name, bytes)] }

/-- Host call `BClipboard::Commit` with its returned status: on `B_OK` the
data message becomes the published content. -/
def Clipboard.Commit (c : Clipboard) (result : Int) : Clipboard :=
  if result = B_OK then { c with committed := c.data } else c

/-- Results of the host calls `ClipboardCallback` makes: whether `Lock`
succeeds and the status `Commit` returns. -/
structure ClipboardEnv where
  lockOk : Bool
  commitResult : Int
  deriving DecidableEq, Repr

/-- The method `uBarrierInputServerDevice::ClipboardCallback`; `data` is the
memory the pointer argument refers to, of which `size` bytes are passed on. -/
def ClipboardCallback (clip : Clipboard) (env : ClipboardEnv)
    (format : uBarrierClipboardFormat) (data : List Nat) (size : Nat) : Clipboard :=
  if format ≠ uBarrierClipboardFormat.UBARRIER_CLIPBOARD_FORMAT_TEXT then clip
  else if env.lockOk then
    ((clip.Clear).AddData "text/plain" (data.take size)).Commit env.commitResult
  else clip

/-! ## Further notions used by the claims -/

/-- The click count a message carries (only `B_MOUSE_DOWN` has one). -/
def Event.clicks? : Event → Option Nat
  | .mouseDown _ _ _ _ clicks => some clicks
  | _ => none

/-- The key code a key message carries. -/
def Event.keycode? : Event → Option Nat
  | .key _ _ keycode _ _ _ _ _ => some keycode
  | _ => none

/-- The repeat count attached to a key message (`be:key_repeat`), if any. -/
def Event.keyRepeat? : Event → Option Nat
  | .key _ _ _ _ _ _ keyRepeat _ => keyRepeat
  | _ => none

/-- Some button is down in `new` that was not down in `old`. -/
def wentDown (old new : Nat) : Bool :=
  (List.range 3).any (fun i => new.testBit i && !old.testBit i)

/-- Some button that was down in `old` is not down in `new`. -/
def wentUp (old new : Nat) : Bool :=
  (List.range 3).any (fun i => old.testBit i && !new.testBit i)

/-- A call at time `t`, at the origin, with the given buttons down. -/
def buttonsAt (t : Nat) (left right middle : Bool) : MouseCall :=
  { timestamp := t, x := 0, y := 0, wheelX := 0, wheelY := 0,
    buttonLeft := if left then UBARRIER_TRUE else UBARRIER_FALSE,
    buttonRight := if right then UBARRIER_TRUE else UBARRIER_FALSE,
    buttonMiddle := if middle then UBARRIER_TRUE else UBARRIER_FALSE }

/-- A key environment in which key code 0x12 resolves to the character `1`
and no other key code resolves to characters. -/
def charKeyEnv : KeyEnv :=
  { fServerKeymap := "", kXKeycodeMap := [],
    kATKeycodeMap := [0x01, 0x12, 0x13, 0x14, 0x15],
    keys := haikuModifierKeys,
    GetChars := fun keycode _ => if keycode = 0x12 then [0x31] else [] }

/-- A key call at time 0 with no remote modifier flag set. -/
def keyCall (scancode : Nat) (isKeyDown isKeyRepeat : Bool) : KeyCall :=
  { timestamp := 0, scancode := scancode, _modifiers := 0, isKeyDown := isKeyDown,
    isKeyRepeat := isKeyRepeat }

/-- A key environment whose two tables differ: scan code 2 is key code 0x02
in the X11 table and key code 0x12 in the AT table.  `keymap` is the configured
`server_keymap` string. -/
def twoTableEnv (keymap : String) : KeyEnv :=
  { fServerKeymap := keymap, kXKeycodeMap := [0x01, 0x02, 0x03],
    kATKeycodeMap := [0x01, 0x12, 0x13],
    keys := haikuModifierKeys, GetChars := fun _ _ => [] }

/-! ## Lemmas on MouseCallback -/

@[simp] theorem mouseMoveStep_clicks (s : MouseState) (c : MouseCall) :
    (mouseMoveStep s c).1.clicks = s.clicks ∧
    (mouseMoveStep s c).1.oldButtons = s.oldButtons ∧
    (mouseMoveStep s c).1.oldPressedButtons = s.oldPressedButtons ∧
    (mouseMoveStep s c).1.oldWhen = s.oldWhen ∧
    (mouseMoveStep s c).1.oldWheelX = s.oldWheelX ∧
    (mouseMoveStep s c).1.oldWheelY = s.oldWheelY := by
  unfold mouseMoveStep
  split <;> simp

@[simp] theorem mouseWheelStep_fields (s : MouseState) (c : MouseCall) :
    (mouseWheelStep s c).1.clicks = s.clicks ∧
    (mouseWheelStep s c).1.oldButtons = s.oldButtons ∧
    (mouseWheelStep s c).1.oldPressedButtons = s.oldPressedButtons ∧
    (mouseWheelStep s c).1.oldWhen = s.oldWhen ∧
    (mouseWheelStep s c).1.oldX = s.oldX ∧
    (mouseWheelStep s c).1.oldY = s.oldY := by
  unfold mouseWheelStep
  split <;> simp

theorem mouseButtonStep_fields (s : MouseState) (c : MouseCall) :
    (mouseButtonStep s c).1.oldX = s.oldX ∧
    (mouseButtonStep s c).1.oldY = s.oldY ∧
    (mouseButtonStep s c).1.oldWheelX = s.oldWheelX ∧
    (mouseButtonStep s c).1.oldWheelY = s.oldWheelY := by
  unfold mouseButtonStep
  simp only []
  split_ifs <;> simp

/-- The button fields after a call are those the button block leaves. -/
theorem MouseCallback_button_fields (s : MouseState) (c : MouseCall) :
    (MouseCallback s c).1.clicks = (mouseButtonStep s c).1.clicks ∧
    (MouseCallback s c).1.oldButtons = (mouseButtonStep s c).1.oldButtons ∧
    (MouseCallback s c).1.oldPressedButtons = (mouseButtonStep s c).1.oldPressedButtons ∧
    (MouseCallback s c).1.oldWhen = (mouseButtonStep s c).1.oldWhen := by
  simp [MouseCallback, mouseMoveStep_clicks, mouseWheelStep_fields]

theorem mouseMoveStep_not_button (s : MouseState) (c : MouseCall) :
    (mouseMoveStep s c).2.filter Event.isButton = [] ∧
    (mouseMoveStep s c).2.filter Event.isWheel = [] := by
  unfold mouseMoveStep
  split <;> simp [Event.isButton, Event.isWheel]

theorem mouseWheelStep_not_button (s : MouseState) (c : MouseCall) :
    (mouseWheelStep s c).2.filter Event.isButton = [] ∧
    (mouseWheelStep s c).2.filter Event.isMove = [] := by
  unfold mouseWheelStep
  split <;> simp [Event.isButton, Event.isMove]

theorem mouseButtonStep_not_move (s : MouseState) (c : MouseCall) :
    (mouseButtonStep s c).2.filter Event.isMove = [] ∧
    (mouseButtonStep s c).2.filter Event.isWheel = [] := by
  unfold mouseButtonStep
  simp only []
  split_ifs <;> simp [Event.isMove, Event.isWheel]

/-- Button messages of a call are exactly those of the button block. -/
theorem MouseCallback_button_events (s : MouseState) (c : MouseCall) :
    (MouseCallback s c).2.filter Event.isButton = (mouseButtonStep s c).2 := by
  have h1 : (mouseButtonStep s c).2.filter Event.isButton = (mouseButtonStep s c).2 := by
    unfold mouseButtonStep
    simp only []
    split_ifs <;> simp [Event.isButton]
  simp [MouseCallback, List.filter_append, mouseMoveStep_not_button,
    mouseWheelStep_not_button, h1]

theorem sub64_of_le {a b : Nat} (hb : b ≤ a) (ha : a < 2 ^ 64) : sub64 a b = a - b := by
  unfold sub64
  have h1 : a % 2 ^ 64 = a := Nat.mod_eq_of_lt ha
  have h2 : b % 2 ^ 64 = b := Nat.mod_eq_of_lt (lt_of_le_of_lt hb ha)
  rw [h1, h2]
  omega

theorem mouseButtonStep_same (s : MouseState) (c : MouseCall)
    (h : c.buttons = s.oldButtons) : mouseButtonStep s c = (s, []) := by
  simp [mouseButtonStep, h]

theorem mouseButtonStep_press (s : MouseState) (c : MouseCall)
    (h : c.buttons ≠ s.oldButtons) (hz : c.buttons > 0) :
    mouseButtonStep s c =
      ({ s with
          clicks := if c.buttons = s.oldPressedButtons ∧
            sub64 c.timestamp s.oldWhen < 500000 then u16 (s.clicks + 1) else 1,
          oldWhen := c.timestamp, oldPressedButtons := c.buttons, oldButtons := c.buttons },
       [Event.mouseDown c.timestamp c.buttons c.x c.y
          (if c.buttons = s.oldPressedButtons ∧
            sub64 c.timestamp s.oldWhen < 500000 then u16 (s.clicks + 1) else 1)]) := by
  simp [mouseButtonStep, h, hz]

theorem mouseButtonStep_release (s : MouseState) (c : MouseCall)
    (h : c.buttons ≠ s.oldButtons) (hz : c.buttons = 0) :
    mouseButtonStep s c =
      ({ s with clicks := 1, oldButtons := c.buttons },
       [Event.mouseUp c.timestamp c.buttons c.x c.y]) := by
  have h' : ¬ (0 = s.oldButtons) := by rw [hz] at h; exact h
  simp [mouseButtonStep, hz, h']

theorem MouseInv_init (t0 : Nat) : MouseInv (MouseState.init t0) 0 none := by
  simp [MouseInv, MouseState.init]

/-- One call keeps the relation between the static variables and the trace. -/
theorem MouseInv_step (s : MouseState) (prev : Nat) (acc : Option (Nat × Nat))
    (c : MouseCall) (h : MouseInv s prev acc) :
    MouseInv (MouseCallback s c).1 c.buttons
      (if c.buttons ≠ prev ∧ c.buttons > 0 then some (c.buttons, c.timestamp) else acc) := by
  obtain ⟨h1, h2, h3, h4⟩ := h
  obtain ⟨e1, e2, e3, e4⟩ := MouseCallback_button_fields s c
  unfold MouseInv
  rw [e1, e2, e3, e4]
  subst h1
  by_cases hne : c.buttons = s.oldButtons
  · rw [mouseButtonStep_same s c hne]
    have hif : ¬ (c.buttons ≠ s.oldButtons ∧ c.buttons > 0) := fun x => x.1 hne
    rw [if_neg hif, hne]
    exact ⟨rfl, h2, h3, h4⟩
  · by_cases hz : c.buttons > 0
    · have hif : (if c.buttons ≠ s.oldButtons ∧ c.buttons > 0
          then some (c.buttons, c.timestamp) else acc) = some (c.buttons, c.timestamp) :=
        if_pos ⟨hne, hz⟩
      rw [mouseButtonStep_press s c hne hz, hif]
      have hz' : c.buttons ≠ 0 := by omega
      exact ⟨rfl, fun _ => rfl, fun x => absurd x hz', rfl, rfl, hz'⟩
    · have hz' : c.buttons = 0 := by omega
      have hif : ¬ (c.buttons ≠ s.oldButtons ∧ c.buttons > 0) := fun x => hz x.2
      rw [mouseButtonStep_release s c hne hz', if_neg hif]
      refine ⟨rfl, fun x => absurd hz' x, fun _ _ => rfl, ?_⟩
      cases acc with
      | none => exact h4
      | some p => exact h4

theorem MouseInv_run (pre : List MouseCall) :
    ∀ (s : MouseState) (prev : Nat) (acc : Option (Nat × Nat)), MouseInv s prev acc →
      MouseInv (mouseRun s pre) (lastMask prev pre) (lastPress prev acc pre) := by
  induction pre with
  | nil => intro s prev acc h; simpa [mouseRun, lastMask, lastPress] using h
  | cons c cs ih =>
    intro s prev acc h
    have hs := MouseInv_step s prev acc c h
    have := ih _ _ _ hs
    simp only [mouseRun, lastMask, lastPress]
    split_ifs at this ⊢ <;> exact this

theorem nonDecreasing_last_le (pre : List MouseCall) :
    ∀ (t0 : Nat) (c : MouseCall), nonDecreasing t0 (pre ++ [c]) → t0 ≤ c.timestamp := by
  induction pre with
  | nil => intro t0 c h; exact h.1
  | cons d ds ih =>
    intro t0 c h
    exact le_trans h.1 (ih d.timestamp c h.2)

theorem lastPress_time_le (pre : List MouseCall) :
    ∀ (t0 prev : Nat) (acc : Option (Nat × Nat)) (c : MouseCall),
      nonDecreasing t0 (pre ++ [c]) → (∀ p, acc = some p → p.2 ≤ t0) →
      ∀ p, lastPress prev acc pre = some p → p.2 ≤ c.timestamp := by
  induction pre with
  | nil =>
    intro t0 prev acc c h hacc p hp
    simp only [lastPress] at hp
    exact le_trans (hacc p hp) h.1
  | cons d ds ih =>
    intro t0 prev acc c h hacc p hp
    simp only [lastPress] at hp
    split_ifs at hp with hc
    · refine ih d.timestamp d.buttons _ c h.2 ?_ p hp
      intro q hq
      cases hq
      exact le_refl _
    · refine ih d.timestamp d.buttons acc c h.2 ?_ p hp
      intro q hq
      exact le_trans (hacc q hq) h.1

/-! ## Mouse claims -/

/-- C1 (counterexample): a left press at 1.0 s, a release, and a second left
press exactly 500 ms after the first.  The previous press was not more than
500 ms earlier and the mask is the same, so the rule as stated gives 2, but the
press carries `clicks = 1`. -/
theorem C1_counterexample :
    (MouseCallback (mouseRun (MouseState.init 0) [leftDownAt 1000000, allUpAt 1100000])
        (leftDownAt 1500000)).2 = [Event.mouseDown 1500000 1 0 0 1] ∧
    lastPress 0 none [leftDownAt 1000000, allUpAt 1100000] = some (1, 1000000) ∧
    clickRuleStated (lastPress 0 none [leftDownAt 1000000, allUpAt 1100000])
      (mouseRun (MouseState.init 0) [leftDownAt 1000000, allUpAt 1100000]).clicks
      (leftDownAt 1500000).buttons (leftDownAt 1500000).timestamp = 2 := by
  decide

/-- C1 (amended): along every sequence of mouse callbacks with non-decreasing
timestamps, a press (a call whose mask is non-zero and differs from the mask of
the call before it) emits one mouse-down message carrying the new click count;
the count is 1 when there was no earlier press, when the mask differs from the
previously pressed mask, or when the previous press was at least 500 ms
(500000 microseconds) earlier, and otherwise it is the old count plus exactly 1
(the old count then being 1). -/
theorem C1_click_rule (t0 : Nat) (pre : List MouseCall) (c : MouseCall)
    (hmono : nonDecreasing t0 (pre ++ [c]))
    (hwf : c.timestamp < 2 ^ 64)
    (hpress : c.buttons ≠ lastMask 0 pre ∧ c.buttons > 0) :
    ∃ count : Nat,
      (MouseCallback (mouseRun (MouseState.init t0) pre) c).2.filter Event.isButton
        = [Event.mouseDown c.timestamp c.buttons c.x c.y count] ∧
      (MouseCallback (mouseRun (MouseState.init t0) pre) c).1.clicks = count ∧
      count = (match lastPress 0 none pre with
        | none => 1
        | some (m, t) =>
          if c.buttons ≠ m ∨ c.timestamp - t ≥ 500000 then 1
          else (mouseRun (MouseState.init t0) pre).clicks + 1) ∧
      (count ≠ 1 → (mouseRun (MouseState.init t0) pre).clicks = 1) := by
  have inv := MouseInv_run pre _ 0 none (MouseInv_init t0)
  have htime := lastPress_time_le pre t0 0 none c hmono (by intro p hp; cases hp)
  generalize mouseRun (MouseState.init t0) pre = s at inv ⊢
  obtain ⟨i1, i2, i3, i4⟩ := inv
  have hne : c.buttons ≠ s.oldButtons := by rw [i1]; exact hpress.1
  have hz : c.buttons > 0 := hpress.2
  obtain ⟨e1, _, _, _⟩ := MouseCallback_button_fields s c
  rw [MouseCallback_button_events, e1, mouseButtonStep_press s c hne hz]
  refine ⟨_, rfl, rfl, ?_, ?_⟩
  · cases hlp : lastPress 0 none pre with
    | none =>
      rw [hlp] at i4
      have : ¬ (c.buttons = s.oldPressedButtons ∧ sub64 c.timestamp s.oldWhen < 500000) := by
        intro h
        have := h.1
        omega
      simp [this]
    | some p =>
      obtain ⟨m, t⟩ := p
      rw [hlp] at i4
      obtain ⟨j1, j2, j3⟩ := i4
      have hle : t ≤ c.timestamp := htime (m, t) hlp
      have hsub : sub64 c.timestamp s.oldWhen = c.timestamp - t := by
        rw [j2]; exact sub64_of_le hle hwf
      simp only [hsub, j1]
      by_cases hm : c.buttons = m
      · by_cases hlt : c.timestamp - t < 500000
        · have hold : s.oldButtons = 0 := by
            by_contra hnz
            have h1 : lastMask 0 pre ≠ 0 := by rw [← i1]; exact hnz
            have h2 := i2 h1
            exact hpress.1 (by rw [hm, ← j1, h2])
          have hclk : s.clicks = 1 := by
            apply i3
            · rw [← i1]; exact hold
            · rw [j1]; exact j3
          have : ¬ (c.buttons ≠ m ∨ c.timestamp - t ≥ 500000) := by
            intro h
            rcases h with h | h
            · exact h hm
            · omega
          have hge : ¬ (500000 ≤ c.timestamp - t) := by omega
          simp [hm, hlt, hclk, u16, hge]
        · have : c.timestamp - t ≥ 500000 := by omega
          simp [hm, hlt, this]
      · simp [hm]
  · intro hcount
    by_cases hcond : c.buttons = s.oldPressedButtons ∧ sub64 c.timestamp s.oldWhen < 500000
    · have hold : s.oldButtons = 0 := by
        by_contra hnz
        have h1 : lastMask 0 pre ≠ 0 := by rw [← i1]; exact hnz
        have h2 := i2 h1
        exact hpress.1 (by rw [hcond.1, h2])
      apply i3
      · rw [← i1]; exact hold
      · rw [← hcond.1]; omega
    · simp [hcond] at hcount

/-- C1 (witness): two left presses 200 ms apart carry clicks 1 then 2, and
two left presses 800 ms apart carry clicks 1 then 1. -/
theorem C1_click_rule_witness :
    (nonDecreasing 0 ([leftDownAt 1000000, allUpAt 1100000] ++ [leftDownAt 1200000]) ∧
      (leftDownAt 1200000).timestamp < 2 ^ 64 ∧
      ((leftDownAt 1200000).buttons ≠ lastMask 0 [leftDownAt 1000000, allUpAt 1100000] ∧
        (leftDownAt 1200000).buttons > 0)) ∧
    (∃ count : Nat,
      (MouseCallback (mouseRun (MouseState.init 0) [leftDownAt 1000000, allUpAt 1100000])
          (leftDownAt 1200000)).2.filter Event.isButton
        = [Event.mouseDown 1200000 1 0 0 count] ∧ count = 2) ∧
    (MouseCallback (MouseState.init 0) (leftDownAt 1000000)).2
      = [Event.mouseDown 1000000 1 0 0 1] ∧
    (MouseCallback (mouseRun (MouseState.init 0) [leftDownAt 1000000, allUpAt 1100000])
        (leftDownAt 1200000)).2 = [Event.mouseDown 1200000 1 0 0 2] ∧
    (MouseCallback (mouseRun (MouseState.init 0) [leftDownAt 1000000, allUpAt 1100000])
        (leftDownAt 1800000)).2 = [Event.mouseDown 1800000 1 0 0 1] := by
  have hyp : nonDecreasing 0 ([leftDownAt 1000000, allUpAt 1100000] ++ [leftDownAt 1200000]) :=
    ⟨by decide, by decide, by decide, trivial⟩
  refine ⟨⟨hyp, by decide, by decide, by decide⟩, ?_, by decide, by decide, by decide⟩
  obtain ⟨count, h1, _, h3, _⟩ :=
    C1_click_rule 0 [leftDownAt 1000000, allUpAt 1100000] (leftDownAt 1200000) hyp
      (by decide) ⟨by decide, by decide⟩
  exact ⟨count, h1, by rw [h3]; decide⟩

/-- C7: a call emits exactly one wheel message when `wheelX` or `wheelY` is
non-zero, and none when both are 0. -/
theorem C7_wheel_event_iff (s : MouseState) (c : MouseCall) :
    ((MouseCallback s c).2.filter Event.isWheel).length
      = (if c.wheelX ≠ 0 ∨ c.wheelY ≠ 0 then 1 else 0) := by
  have h1 := (mouseButtonStep_not_move s c).2
  have h2 := (mouseMoveStep_not_button (mouseButtonStep s c).1 c).2
  simp only [MouseCallback, List.filter_append, h1, h2, List.nil_append]
  unfold mouseWheelStep
  split <;> simp [Event.isWheel]

/-- C8 (counterexample): after a call with wheel values (120, 0), a call with
wheel values (0, 0) leaves the stored wheel state at (120, 0), and the next
call with (240, 0) carries the delta (120 - 240) / 120 = -1 rather than
(0 - 240) / 120 = -2. -/
theorem C8_counterexample :
    (MouseCallback (mouseRun (MouseState.init 0) [wheelAt 10 120 0]) (wheelAt 20 0 0)).1.oldWheelX
      = 120 ∧
    (wheelAt 20 0 0).wheelX = 0 ∧
    (MouseCallback (mouseRun (MouseState.init 0) [wheelAt 10 120 0, wheelAt 20 0 0])
        (wheelAt 30 240 0)).2 = [Event.mouseWheel 30 (-1) 0] ∧
    Int.tdiv ((wheelAt 20 0 0).wheelX - (wheelAt 30 240 0).wheelX) 120 = -2 := by
  decide

theorem lastWheel_append (pre : List MouseCall) :
    ∀ (acc : Int × Int) (c : MouseCall), lastWheel acc (pre ++ [c]) =
      (if c.wheelX ≠ 0 ∨ c.wheelY ≠ 0 then (c.wheelX, c.wheelY) else lastWheel acc pre) := by
  induction pre with
  | nil => intro acc c; simp [lastWheel]
  | cons d ds ih => intro acc c; simp only [List.cons_append, lastWheel]; exact ih _ c

theorem MouseCallback_wheel_state (s : MouseState) (c : MouseCall) :
    ((MouseCallback s c).1.oldWheelX, (MouseCallback s c).1.oldWheelY)
      = (if c.wheelX ≠ 0 ∨ c.wheelY ≠ 0 then (c.wheelX, c.wheelY)
          else (s.oldWheelX, s.oldWheelY)) := by
  obtain ⟨_, _, b3, b4⟩ := mouseButtonStep_fields s c
  obtain ⟨_, _, _, _, m5, m6⟩ := mouseMoveStep_clicks (mouseButtonStep s c).1 c
  simp only [MouseCallback]
  unfold mouseWheelStep
  split <;> simp [b3, b4, m5, m6]

theorem mouseRun_wheel (pre : List MouseCall) :
    ∀ (s : MouseState),
      ((mouseRun s pre).oldWheelX, (mouseRun s pre).oldWheelY)
        = lastWheel (s.oldWheelX, s.oldWheelY) pre := by
  induction pre with
  | nil => intro s; rfl
  | cons d ds ih =>
    intro s
    simp only [mouseRun, lastWheel]
    rw [ih, MouseCallback_wheel_state]

/-- C8 (amended): the stored wheel state is updated only by a call that has a
non-zero wheel axis; a call with both wheel values 0 leaves it unchanged.
Hence after any sequence of calls it holds the wheel values of the most recent
call that had a non-zero axis ((0, 0) if there was none), and every emitted
wheel message carries ((w'X - wheelX) / 120, (w'Y - wheelY) / 120), with
division truncating toward zero, where (w'X, w'Y) are those stored values. -/
theorem C8_wheel_state (t0 : Nat) (pre : List MouseCall) (c : MouseCall) :
    ((MouseCallback (mouseRun (MouseState.init t0) pre) c).1.oldWheelX,
      (MouseCallback (mouseRun (MouseState.init t0) pre) c).1.oldWheelY)
      = (if c.wheelX ≠ 0 ∨ c.wheelY ≠ 0 then (c.wheelX, c.wheelY)
          else lastWheel (0, 0) pre) ∧
    (MouseCallback (mouseRun (MouseState.init t0) pre) c).2.filter Event.isWheel
      = (if c.wheelX ≠ 0 ∨ c.wheelY ≠ 0 then
          [Event.mouseWheel c.timestamp
            (Int.tdiv ((lastWheel (0, 0) pre).1 - c.wheelX) 120)
            (Int.tdiv ((lastWheel (0, 0) pre).2 - c.wheelY) 120)]
        else []) := by
  have hrun := mouseRun_wheel pre (MouseState.init t0)
  have hinit : ((MouseState.init t0).oldWheelX, (MouseState.init t0).oldWheelY) = (0, 0) := rfl
  rw [hinit] at hrun
  generalize mouseRun (MouseState.init t0) pre = s at hrun ⊢
  rw [← hrun]
  refine ⟨MouseCallback_wheel_state s c, ?_⟩
  have h1 := (mouseButtonStep_not_move s c).2
  have h2 := (mouseMoveStep_not_button (mouseButtonStep s c).1 c).2
  obtain ⟨_, _, b3, b4⟩ := mouseButtonStep_fields s c
  obtain ⟨_, _, _, _, m5, m6⟩ := mouseMoveStep_clicks (mouseButtonStep s c).1 c
  simp only [MouseCallback, List.filter_append, h1, h2, List.nil_append]
  unfold mouseWheelStep
  split <;> simp [Event.isWheel, b3, b4, m5, m6]

/-- C9: a call emits one move message, carrying the call's button mask and
position, exactly when `x` or `y` differs from the stored position, whatever
the button block did; the stored position is `(x, y)` afterwards.  A call
whose position equals the stored one emits no move message. -/
theorem C9_move_event_iff (s : MouseState) (c : MouseCall) :
    (MouseCallback s c).2.filter Event.isMove
      = (if c.x ≠ s.oldX ∨ c.y ≠ s.oldY then
          [Event.mouseMoved c.timestamp c.buttons c.x c.y] else []) ∧
    (MouseCallback s c).1.oldX = c.x ∧ (MouseCallback s c).1.oldY = c.y := by
  have h1 := (mouseButtonStep_not_move s c).1
  have h3 := (mouseWheelStep_not_button (mouseMoveStep (mouseButtonStep s c).1 c).1 c).2
  obtain ⟨b1, b2, _, _⟩ := mouseButtonStep_fields s c
  obtain ⟨_, _, _, _, w5, w6⟩ := mouseWheelStep_fields (mouseMoveStep (mouseButtonStep s c).1 c).1 c
  simp only [MouseCallback, List.filter_append, h1, h3, List.nil_append, List.append_nil, w5, w6]
  unfold mouseMoveStep
  rw [b1, b2]
  split
  · simp [Event.isMove]
  · rename_i h
    have hx : c.x = s.oldX := by by_contra hx; exact h (Or.inl hx)
    have hy : c.y = s.oldY := by by_contra hy; exact h (Or.inr hy)
    simp [b1, b2, hx, hy]

/-! ## Keyboard claims -/

/-- C2 (failing input): with scan codes 2 and 3 mapped to key codes 0x12 and
0x13, a key-down of scan code 2 sets the bit of key code 0x12, and a following
key-up of scan code 3 clears it, although the most recent call that mapped to
0x12 was a key-down: the key-up zeroes the whole byte of the bitmap. -/
theorem C2_key_up_clears_other_keys :
    (plainKey 2 true).keycode sampleKeyEnv = 0x12 ∧
    (plainKey 3 false).keycode sampleKeyEnv = 0x13 ∧
    keyBit (keyRun sampleKeyEnv (KeyState.init 0) [plainKey 2 true]).states 0x12 = true ∧
    keyBit (keyRun sampleKeyEnv (KeyState.init 0)
      [plainKey 2 true, plainKey 3 false]).states 0x12 = false ∧
    lastWasDown sampleKeyEnv 0x12 [plainKey 2 true, plainKey 3 false] = true ∧
    (keyRun sampleKeyEnv (KeyState.init 0) [plainKey 2 true, plainKey 3 false]).states
      = List.replicate 16 0 := by
  decide

theorem lookupKeycode_zero (table : List Nat) :
    (lookupKeycode table 0).scancode = 128 := by
  unfold lookupKeycode
  simp only [gt_iff_lt, lt_self_iff_false, false_and, if_false]
  split <;> simp [u8]

/-- C3 (failing input): for every table, state, modifier value, down flag and
repeat flag, a call with scan code 0 emits exactly one key message, because
the lookup replaces the scan code by 0x80 before the test for 0. -/
theorem C3_scancode_zero_emits_key (env : KeyEnv) (s : KeyState)
    (t mods : Nat) (down rep : Bool) :
    ((KeyboardCallback env s
        { timestamp := t, scancode := 0, _modifiers := mods, isKeyDown := down,
          isKeyRepeat := rep }).2.filter Event.isKey).length = 1 := by
  have hm : ∀ (f : Nat) (st : List Nat) (m : Nat) (c : KeyCall),
      (keyModifierStep f st m c).2.filter Event.isKey = [] := by
    intro f st m c
    unfold keyModifierStep
    split_ifs <;> simp [Event.isKey]
  simp only [KeyboardCallback, List.filter_append, hm, List.nil_append, lookupKeycode_zero]
  simp [keyEventStep, Event.isKey]

set_option maxRecDepth 4000 in
/-- C4 (counterexample): with a table of 200 entries, scan code 256 is out of
bounds and so is 256 OR 0x80 = 384, so the mapper as stated returns 0; the
code retries with the low byte 0x80 of 384, which is in bounds, and returns
the entry for 128. -/
theorem C4_counterexample :
    lookupStated (List.replicate 200 7) 256 = 0 ∧
    (lookupKeycode (List.replicate 200 7) 256).keycode = 7 ∧
    (lookupKeycode (List.replicate 200 7) 256).tried = [256, 128] ∧
    (List.replicate 200 7).getD (128 - 1) 0 = 7 := by
  decide

/-- C4 (amended): the key code is the table entry for `s` when `s` is within
the table's bounds; otherwise it is the table entry for the low 8 bits of
`s OR 0x80` when that value is within bounds, and 0 when it is not.  The
bounds are tested once when `s` is within bounds and twice (one retry)
otherwise.  For scan codes below 256 this is the mapper as stated. -/
theorem C4_lookup (table : List Nat) (s : Nat) :
    (lookupKeycode table s).keycode
      = (if 0 < s ∧ s < table.length then table.getD (s - 1) 0
         else if 0 < (s ||| 0x80) % 256 ∧ (s ||| 0x80) % 256 < table.length then
           table.getD ((s ||| 0x80) % 256 - 1) 0
         else 0) ∧
    (lookupKeycode table s).tried
      = (if 0 < s ∧ s < table.length then [s] else [s, (s ||| 0x80) % 256]) ∧
    (s < 256 → (lookupKeycode table s).keycode = lookupStated table s) := by
  have hlow : s < 256 → (s ||| 0x80) % 256 = s ||| 0x80 := by
    intro hs
    apply Nat.mod_eq_of_lt
    exact Nat.or_lt_two_pow (n := 8) hs (by decide)
  have h8 : (2 : Nat) ^ 8 = 256 := rfl
  refine ⟨?_, ?_, ?_⟩
  · by_cases h1 : 0 < s ∧ s < table.length
    · simp [lookupKeycode, h1]
    · by_cases h2 : 0 < (s ||| 0x80) % 256 ∧ (s ||| 0x80) % 256 < table.length
      · simp [lookupKeycode, u8, h1, h2]
      · simp [lookupKeycode, u8, h1, h2]
  · by_cases h1 : 0 < s ∧ s < table.length
    · simp [lookupKeycode, h1]
    · by_cases h2 : 0 < (s ||| 0x80) % 256 ∧ (s ||| 0x80) % 256 < table.length
      · simp [lookupKeycode, u8, h1, h2]
      · simp [lookupKeycode, u8, h1, h2]
  · intro hs
    have h := hlow hs
    by_cases h1 : 0 < s ∧ s < table.length
    · simp [lookupKeycode, lookupStated, h1]
    · by_cases h2 : 0 < (s ||| 0x80) ∧ (s ||| 0x80) < table.length
      · have h2' : 0 < (s ||| 0x80) % 256 ∧ (s ||| 0x80) % 256 < table.length := by
          rw [h]; exact h2
        simp only [lookupKeycode, lookupStated, u8, h8, gt_iff_lt, h1, h2, h2', if_true,
          if_false, h, and_self]
      · have h2' : ¬ (0 < (s ||| 0x80) % 256 ∧ (s ||| 0x80) % 256 < table.length) := by
          rw [h]; exact h2
        simp only [lookupKeycode, lookupStated, u8, h8, gt_iff_lt, h1, h2, h2', if_true,
          if_false, h, and_self]

set_option maxRecDepth 4000 in
/-- C4 (witness): scan code 0x1c in a table of 200 entries. -/
theorem C4_lookup_witness :
    (0x1c < 256) ∧
    (lookupKeycode (List.replicate 200 7) 0x1c).keycode
      = lookupStated (List.replicate 200 7) 0x1c :=
  ⟨by decide, (C4_lookup (List.replicate 200 7) 0x1c).2.2 (by decide)⟩

theorem keyEventStep_not_modifiers (env : KeyEnv) (s : KeyState) (sc kc : Nat) (c : KeyCall) :
    (keyEventStep env s sc kc c).2.filter Event.isModifiers = [] ∧
    (keyEventStep env s sc kc c).1.fModifiers = s.fModifiers ∧
    (keyEventStep env s sc kc c).1.states = s.states := by
  unfold keyEventStep
  split <;> simp [Event.isModifiers]

/-- C5: a call emits one modifiers-changed message exactly when the local mask
computed from the remote modifier flags differs from the stored mask and the
call is not a repeat; otherwise it emits none. -/
theorem C5_modifiers_changed_iff (env : KeyEnv) (s : KeyState) (c : KeyCall) :
    ((KeyboardCallback env s c).2.filter Event.isModifiers).length
      = (if localModifiers env.keys c._modifiers ≠ s.fModifiers ∧ c.isKeyRepeat = false
          then 1 else 0) := by
  simp only [KeyboardCallback, List.filter_append,
    (keyEventStep_not_modifiers _ _ _ _ _).1, List.append_nil]
  unfold keyModifierStep
  by_cases hr : c.isKeyRepeat = true
  · simp [hr]
  · by_cases hd : s.fModifiers = localModifiers env.keys c._modifiers
    · simp [hr, hd]
    · have hd' : ¬ localModifiers env.keys c._modifiers = s.fModifiers := fun e => hd e.symm
      simp [hr, hd, hd', Event.isModifiers]

theorem u32_lt (n : Nat) : u32 n < 2 ^ 32 := Nat.mod_lt _ (by decide)

theorem ite_u32_lt (b : Prop) [Decidable b] (x m : Nat) (h : m < 2 ^ 32) :
    (if b then u32 x else m) < 2 ^ 32 := by
  split
  · exact u32_lt x
  · exact h

theorem localModifiers_lt (K : ModifierKeys) (m : Nat) : localModifiers K m < 2 ^ 32 := by
  unfold localModifiers
  exact ite_u32_lt _ _ _ (ite_u32_lt _ _ _ (ite_u32_lt _ _ _ (ite_u32_lt _ _ _
    (ite_u32_lt _ _ _ (ite_u32_lt _ _ _ (ite_u32_lt _ _ _ (ite_u32_lt _ _ _
      (ite_u32_lt _ _ _ (by decide)))))))))

/-- C6 (counterexample): the stored mask is shift + left shift (0x101) and a
non-repeat key-up arrives with no remote modifier flag, so the computed mask
is 0.  The stored mask becomes 0 (computed AND NOT stored), not
0x101 AND NOT 0 = 0x101. -/
theorem C6_counterexample :
    localModifiers sampleKeyEnv.keys (plainKey 2 false)._modifiers = 0 ∧
    (KeyboardCallback sampleKeyEnv
      { lastScanCode := 0, repeatCount := 1, states := List.replicate 16 0,
        fModifiers := 0x101 } (plainKey 2 false)).1.fModifiers = 0 ∧
    0x101 &&& not32 0 = 0x101 := by
  decide

/-- C6 (amended): for a non-repeat call whose computed mask `c` differs from
the stored mask `m`, on key-down the new stored mask is `m OR c`; on key-up it
is `c AND NOT m` (the stored bits are removed from the computed mask); the
emitted modifiers-changed message carries `m` as the old mask, the new stored
mask as the new mask, and the updated key-down bitmap. -/
theorem C6_modifier_update (env : KeyEnv) (s : KeyState) (c : KeyCall)
    (hrep : c.isKeyRepeat = false)
    (hdiff : localModifiers env.keys c._modifiers ≠ s.fModifiers)
    (hm : s.fModifiers < 2 ^ 32) :
    (KeyboardCallback env s c).1.fModifiers
      = (if c.isKeyDown then s.fModifiers ||| localModifiers env.keys c._modifiers
         else localModifiers env.keys c._modifiers &&& not32 s.fModifiers) ∧
    (KeyboardCallback env s c).2.filter Event.isModifiers
      = [Event.modifiersChanged c.timestamp s.fModifiers
          (KeyboardCallback env s c).1.fModifiers
          (updateStates s.states (c.keycode env) c.isKeyDown)] := by
  have hc := localModifiers_lt env.keys c._modifiers
  have hd : ¬ s.fModifiers = localModifiers env.keys c._modifiers := fun e => hdiff e.symm
  have hor : u32 (localModifiers env.keys c._modifiers ||| s.fModifiers)
      = s.fModifiers ||| localModifiers env.keys c._modifiers := by
    rw [Nat.lor_comm]
    exact Nat.mod_eq_of_lt (Nat.or_lt_two_pow hm hc)
  have hand : u32 (localModifiers env.keys c._modifiers &&& not32 s.fModifiers)
      = localModifiers env.keys c._modifiers &&& not32 s.fModifiers :=
    Nat.mod_eq_of_lt (lt_of_le_of_lt Nat.and_le_left hc)
  have hstep : keyModifierStep s.fModifiers (updateStates s.states (c.keycode env) c.isKeyDown)
      (localModifiers env.keys c._modifiers) c
      = ((if c.isKeyDown then s.fModifiers ||| localModifiers env.keys c._modifiers
          else localModifiers env.keys c._modifiers &&& not32 s.fModifiers),
         [Event.modifiersChanged c.timestamp s.fModifiers
           (if c.isKeyDown then s.fModifiers ||| localModifiers env.keys c._modifiers
            else localModifiers env.keys c._modifiers &&& not32 s.fModifiers)
           (updateStates s.states (c.keycode env) c.isKeyDown)]) := by
    unfold keyModifierStep
    simp only [hrep, hd, hor, hand, ne_eq, not_false_eq_true, if_true, Bool.false_eq_true]
  simp only [KeyboardCallback, List.filter_append,
    (keyEventStep_not_modifiers _ _ _ _ _).1, (keyEventStep_not_modifiers _ _ _ _ _).2.1,
    List.append_nil]
  unfold KeyCall.keycode at hstep
  rw [hstep]
  simp [Event.isModifiers, KeyCall.keycode]

/-- C6 (witness): a non-repeat shift key-down on an empty stored mask. -/
theorem C6_modifier_update_witness :
    ((KeyCall.mk 0 2 UBARRIER_MODIFIER_SHIFT true false).isKeyRepeat = false ∧
      localModifiers sampleKeyEnv.keys (KeyCall.mk 0 2 UBARRIER_MODIFIER_SHIFT true false)._modifiers
        ≠ (KeyState.init 0).fModifiers ∧
      (KeyState.init 0).fModifiers < 2 ^ 32) ∧
    (KeyboardCallback sampleKeyEnv (KeyState.init 0)
      (KeyCall.mk 0 2 UBARRIER_MODIFIER_SHIFT true false)).1.fModifiers = 0x101 := by
  refine ⟨⟨by decide, by decide, by decide⟩, ?_⟩
  rw [(C6_modifier_update sampleKeyEnv (KeyState.init 0)
    (KeyCall.mk 0 2 UBARRIER_MODIFIER_SHIFT true false) (by decide) (by decide) (by decide)).1]
  decide

/-! ## Start -/

/-- C10: with an enabled configuration and a non-empty server address, `Start`
on a device whose running flag is set spawns no worker, leaves the device (and
so the running flag) as it is and returns `B_OK`.  Hence of two `Start` calls
in succession at most one spawns a worker, and whenever the running flag is
set after the first call the second call spawns nothing, changes nothing and
returns `B_OK`. -/
theorem C10_start_idempotent (d : Device) (env1 env2 : StartEnv)
    (hen : d.fEnableBarrier = true) (haddr : d.fServerAddress.length ≠ 0) :
    (d.threadActive = true →
      Start d env1 = { status := B_OK, device := d, spawned := false }) ∧
    ((Start d env1).spawned.toNat + (Start (Start d env1).device env2).spawned.toNat ≤ 1) ∧
    ((Start d env1).device.threadActive = true →
      Start (Start d env1).device env2
        = { status := B_OK, device := (Start d env1).device, spawned := false }) := by
  have hrun : ∀ (e : Device) (env : StartEnv), e.fEnableBarrier = true →
      e.fServerAddress.length ≠ 0 → e.threadActive = true →
      Start e env = { status := B_OK, device := e, spawned := false } := by
    intro e env h1 h2 h3
    cases e
    simp only at h1 h2 h3
    simp [Start, h1, h2, h3]
  have hcfg : (Start d env1).device.fEnableBarrier = true ∧
      (Start d env1).device.fServerAddress.length ≠ 0 ∧
      ((Start d env1).spawned = true → (Start d env1).device.threadActive = true) := by
    unfold Start
    simp only [hen, haddr, false_or, Bool.true_eq_false, if_false]
    split_ifs <;> simp [hen, haddr]
  refine ⟨hrun d env1 hen haddr, ?_, hrun _ env2 hcfg.1 hcfg.2.1⟩
  cases hsp : (Start d env1).spawned with
  | false =>
    cases (Start (Start d env1).device env2).spawned <;> simp
  | true =>
    rw [hrun _ env2 hcfg.1 hcfg.2.1 (hcfg.2.2 hsp)]
    simp

/-- C10 (witness): a running device and two `Start` calls. -/
theorem C10_start_idempotent_witness :
    ((sampleDevice true).fEnableBarrier = true ∧
      (sampleDevice true).fServerAddress.length ≠ 0 ∧
      (sampleDevice true).threadActive = true) ∧
    Start (sampleDevice true) { spawnResult := 9, resumeResult := 0 }
      = { status := B_OK, device := sampleDevice true, spawned := false } ∧
    (Start (sampleDevice false) { spawnResult := 9, resumeResult := 0 }).spawned = true ∧
    Start (Start (sampleDevice false) { spawnResult := 9, resumeResult := 0 }).device
        { spawnResult := 11, resumeResult := 0 }
      = { status := B_OK,
          device := (Start (sampleDevice false) { spawnResult := 9, resumeResult := 0 }).device,
          spawned := false } :=
  ⟨⟨by decide, by decide, by decide⟩,
   (C10_start_idempotent (sampleDevice true) { spawnResult := 9, resumeResult := 0 }
      { spawnResult := 11, resumeResult := 0 } (by decide) (by decide)).1 (by decide),
   by decide,
   (C10_start_idempotent (sampleDevice false) { spawnResult := 9, resumeResult := 0 }
      { spawnResult := 11, resumeResult := 0 } (by decide) (by decide)).2.2 (by decide)⟩

/-- C11: with an enabled configuration, a non-empty address and the running
flag clear, a failing `spawn_thread` makes `Start` return the spawn's negative
status (so not `B_OK`); afterwards the running flag is false, no worker exists
and the clipboard subscription is as it was (`StartWatching` is not called):
only `uBarrierThread` has changed, to the failure status. -/
theorem C11_spawn_failure (d : Device) (env : StartEnv)
    (hen : d.fEnableBarrier = true) (haddr : d.fServerAddress.length ≠ 0)
    (hflag : d.threadActive = false) (hfail : env.spawnResult < 0) :
    (Start d env).status = env.spawnResult ∧
    (Start d env).status ≠ B_OK ∧
    (Start d env).device.threadActive = false ∧
    (Start d env).device.watching = d.watching ∧
    (Start d env).spawned = false ∧
    (Start d env).device = { d with uBarrierThread := env.spawnResult } := by
  have hne : env.spawnResult ≠ B_OK := by
    unfold B_OK
    omega
  cases d
  simp only at hen haddr hflag
  subst hflag
  simp [Start, hen, haddr, hfail, hne]

/-- C11 (witness): a stopped, configured device and a spawn that fails with
status -1. -/
theorem C11_spawn_failure_witness :
    ((sampleDevice false).fEnableBarrier = true ∧
      (sampleDevice false).fServerAddress.length ≠ 0 ∧
      (sampleDevice false).threadActive = false ∧
      (StartEnv.mk (-1) 0).spawnResult < 0) ∧
    (Start (sampleDevice false) (StartEnv.mk (-1) 0)).status = -1 ∧
    (Start (sampleDevice false) (StartEnv.mk (-1) 0)).device.watching = false :=
  ⟨⟨by decide, by decide, by decide, by decide⟩,
   (C11_spawn_failure (sampleDevice false) (StartEnv.mk (-1) 0)
      (by decide) (by decide) (by decide) (by decide)).1,
   by decide⟩

/-- C12: when the configuration is disabled or the server address is empty,
`Start` returns `B_OK`, spawns no worker and leaves every field of the device,
the running flag included, unchanged. -/
theorem C12_start_not_configured (d : Device) (env : StartEnv)
    (h : d.fEnableBarrier = false ∨ d.fServerAddress.length = 0) :
    Start d env = { status := B_OK, device := d, spawned := false } := by
  have h' : d.fServerAddress.length = 0 ∨ d.fEnableBarrier = false := h.symm
  simp [Start, h']

/-- C12 (witness): a running device whose configuration has been disabled. -/
theorem C12_start_not_configured_witness :
    ({ sampleDevice true with fEnableBarrier := false }.fEnableBarrier = false ∨
      { sampleDevice true with fEnableBarrier := false }.fServerAddress.length = 0) ∧
    Start { sampleDevice true with fEnableBarrier := false } (StartEnv.mk 9 0)
      = { status := B_OK, device := { sampleDevice true with fEnableBarrier := false },
          spawned := false } :=
  ⟨Or.inl rfl,
   C12_start_not_configured { sampleDevice true with fEnableBarrier := false }
     (StartEnv.mk 9 0) (Or.inl rfl)⟩

/-! ## ClipboardCallback -/

/-- C13: a call with format Bitmap or Html (any format other than Text) leaves
the clipboard unchanged.  With format Text and a clipboard that can be locked,
the data message is emptied and then holds exactly one field, `text/plain`,
with the `size` bytes passed; when `Commit` returns `B_OK` that is also the
published content.  When the lock fails the clipboard is unchanged. -/
theorem C13_clipboard (clip : Clipboard) (env : ClipboardEnv) (data : List Nat) (size : Nat) :
    ClipboardCallback clip env uBarrierClipboardFormat.UBARRIER_CLIPBOARD_FORMAT_BITMAP
      data size = clip ∧
    ClipboardCallback clip env uBarrierClipboardFormat.UBARRIER_CLIPBOARD_FORMAT_HTML
      data size = clip ∧
    (∀ format, format ≠ uBarrierClipboardFormat.UBARRIER_CLIPBOARD_FORMAT_TEXT →
      ClipboardCallback clip env format data size = clip) ∧
    (env.lockOk = true →
      (ClipboardCallback clip env uBarrierClipboardFormat.UBARRIER_CLIPBOARD_FORMAT_TEXT
        data size).data = [("text/plain", data.take size)]) ∧
    (env.lockOk = true → env.commitResult = B_OK →
      (ClipboardCallback clip env uBarrierClipboardFormat.UBARRIER_CLIPBOARD_FORMAT_TEXT
        data size).committed = [("text/plain", data.take size)]) ∧
    (env.lockOk = false →
      ClipboardCallback clip env uBarrierClipboardFormat.UBARRIER_CLIPBOARD_FORMAT_TEXT
        data size = clip) := by
  refine ⟨by simp [ClipboardCallback], by simp [ClipboardCallback], ?_, ?_, ?_, ?_⟩
  · intro format hf
    simp [ClipboardCallback, hf]
  · intro hl
    simp only [ClipboardCallback, hl, ne_eq, not_true_eq_false, if_false, if_true,
      Clipboard.Commit, Clipboard.AddData, Clipboard.Clear]
    split <;> simp
  · intro hl hc
    simp [ClipboardCallback, hl, hc, Clipboard.Commit, Clipboard.AddData, Clipboard.Clear]
  · intro hl
    simp [ClipboardCallback, hl]

/-- C13 (witness): the text `abc` replaces an earlier clipboard content. -/
theorem C13_clipboard_witness :
    ((ClipboardEnv.mk true B_OK).lockOk = true) ∧
    (ClipboardCallback { data := [("text/plain", [0x78])], committed := [] }
      (ClipboardEnv.mk true B_OK) uBarrierClipboardFormat.UBARRIER_CLIPBOARD_FORMAT_TEXT
      [0x61, 0x62, 0x63] 3).data = [("text/plain", [0x61, 0x62, 0x63])] :=
  ⟨rfl,
   (C13_clipboard { data := [("text/plain", [0x78])], committed := [] }
      (ClipboardEnv.mk true B_OK) [0x61, 0x62, 0x63] 3).2.2.2.1 rfl⟩

/-! ## Further mouse claims -/

/-- C17 (counterexample): with the stored mask 3 (left and right down), a
call with only the left button down has a button that went up and none that
went down, yet the message emitted is a mouse-down carrying a click count. -/
theorem C17_counterexample :
    (mouseRun (MouseState.init 0) [buttonsAt 10 true true false]).oldButtons = 3 ∧
    (buttonsAt 20 true false false).buttons = 1 ∧
    wentUp 3 1 = true ∧ wentDown 3 1 = false ∧
    (MouseCallback (mouseRun (MouseState.init 0) [buttonsAt 10 true true false])
      (buttonsAt 20 true false false)).2 = [Event.mouseDown 20 1 0 0 1] := by
  decide

/-- C17 (amended): the mask has bit 0 for left, bit 1 for right and bit 2 for
middle.  A call emits exactly one button message when the mask differs from
the stored mask and none otherwise; the message is a mouse-down carrying the
click count when the new mask is non-zero and a mouse-up when the new mask is
zero; it carries the new mask, and the stored mask is the new mask afterwards. -/
theorem C17_button_event (s : MouseState) (c : MouseCall) :
    c.buttons = (if c.buttonLeft = UBARRIER_TRUE then 1 else 0)
      + (if c.buttonRight = UBARRIER_TRUE then 2 else 0)
      + (if c.buttonMiddle = UBARRIER_TRUE then 4 else 0) ∧
    (MouseCallback s c).2.filter Event.isButton
      = (if c.buttons ≠ s.oldButtons then
          (if c.buttons > 0 then
            [Event.mouseDown c.timestamp c.buttons c.x c.y (MouseCallback s c).1.clicks]
           else [Event.mouseUp c.timestamp c.buttons c.x c.y])
         else []) ∧
    (MouseCallback s c).1.oldButtons = c.buttons := by
  obtain ⟨e1, e2, _, _⟩ := MouseCallback_button_fields s c
  refine ⟨?_, ?_, ?_⟩
  · unfold MouseCall.buttons
    split_ifs <;> rfl
  · rw [MouseCallback_button_events, e1]
    by_cases hne : c.buttons = s.oldButtons
    · simp [mouseButtonStep_same s c hne, hne]
    · by_cases hz : c.buttons > 0
      · rw [mouseButtonStep_press s c hne hz]
        simp [hne, hz]
      · have hz' : c.buttons = 0 := by omega
        rw [mouseButtonStep_release s c hne hz']
        simp [hne, hz]
  · rw [e2]
    by_cases hne : c.buttons = s.oldButtons
    · rw [mouseButtonStep_same s c hne]; exact hne.symm
    · by_cases hz : c.buttons > 0
      · rw [mouseButtonStep_press s c hne hz]
      · have hz' : c.buttons = 0 := by omega
        rw [mouseButtonStep_release s c hne hz']

/-- A press in a state that satisfies the trace relation carries 1 or 2. -/
theorem mouseButtonStep_clicks_le (s : MouseState) (prev : Nat) (acc : Option (Nat × Nat))
    (c : MouseCall) (h : MouseInv s prev acc) :
    ((mouseButtonStep s c).2.filterMap Event.clicks?).all
      (fun k => decide (k = 1 ∨ k = 2)) = true := by
  obtain ⟨h1, h2, h3, _⟩ := h
  by_cases hne : c.buttons = s.oldButtons
  · simp [mouseButtonStep_same s c hne]
  · by_cases hz : c.buttons > 0
    · rw [mouseButtonStep_press s c hne hz]
      by_cases hcond : c.buttons = s.oldPressedButtons ∧ sub64 c.timestamp s.oldWhen < 500000
      · have hprev : prev = 0 := by
          by_contra hp
          exact hne (by rw [hcond.1, h2 hp, h1])
        have hclk : s.clicks = 1 := by
          apply h3 hprev
          rw [← hcond.1]
          omega
        simp [hcond, hclk, Event.clicks?, u16]
      · simp [hcond, Event.clicks?]
    · have hz' : c.buttons = 0 := by omega
      rw [mouseButtonStep_release s c hne hz']
      simp [Event.clicks?]

theorem mouse_other_steps_no_clicks (s : MouseState) (c : MouseCall) :
    (mouseMoveStep s c).2.filterMap Event.clicks? = [] ∧
    (mouseWheelStep s c).2.filterMap Event.clicks? = [] := by
  unfold mouseMoveStep mouseWheelStep
  constructor <;> split <;> simp [Event.clicks?]

/-- C18: along every sequence of `MouseCallback` calls from the initial state,
every click count carried by a mouse-down message is 1 or 2; a third press in
quick succession (a triple click) carries 2 again. -/
theorem C18_clicks_one_or_two (t0 : Nat) (pre : List MouseCall) (c : MouseCall) :
    ((MouseCallback (mouseRun (MouseState.init t0) pre) c).2.filterMap Event.clicks?).all
      (fun k => decide (k = 1 ∨ k = 2)) = true ∧
    (MouseCallback (mouseRun (MouseState.init 0) []) (leftDownAt 1000000)).2
      = [Event.mouseDown 1000000 1 0 0 1] ∧
    (MouseCallback (mouseRun (MouseState.init 0) [leftDownAt 1000000, allUpAt 1100000])
      (leftDownAt 1200000)).2 = [Event.mouseDown 1200000 1 0 0 2] ∧
    (MouseCallback (mouseRun (MouseState.init 0)
        [leftDownAt 1000000, allUpAt 1100000, leftDownAt 1200000, allUpAt 1300000])
      (leftDownAt 1400000)).2 = [Event.mouseDown 1400000 1 0 0 2] := by
  refine ⟨?_, by decide, by decide, by decide⟩
  have inv := MouseInv_run pre _ 0 none (MouseInv_init t0)
  have hb := mouseButtonStep_clicks_le _ _ _ c inv
  generalize mouseRun (MouseState.init t0) pre = s at hb ⊢
  simp only [MouseCallback, List.filterMap_append,
    (mouse_other_steps_no_clicks _ c).1, (mouse_other_steps_no_clicks _ c).2, List.append_nil]
  exact hb

/-! ## Further keyboard claims -/

theorem retry_code_range (s : Nat) : 0x80 ≤ u8 (s ||| 0x80) ∧ u8 (s ||| 0x80) ≤ 0xFF := by
  unfold u8
  constructor
  · have hbit : (0x80 : Nat).testBit 7 = true := by decide
    have h : ((s ||| 0x80) % 2 ^ 8).testBit 7 = true := by
      rw [Nat.testBit_mod_two_pow, Nat.testBit_or, hbit]
      simp
    have := Nat.testBit_implies_ge h
    omega
  · have := Nat.mod_lt (s ||| 0x80) (show 0 < 2 ^ 8 by decide)
    omega

/-- The final value of `scancode` is never 0. -/
theorem lookupKeycode_scancode_pos (table : List Nat) (s : Nat) :
    0 < (lookupKeycode table s).scancode := by
  have hr := (retry_code_range s).1
  by_cases h1 : s > 0 ∧ s < table.length
  · simp [lookupKeycode, h1]
  · by_cases h2 : u8 (s ||| 0x80) > 0 ∧ u8 (s ||| 0x80) < table.length
    · simp only [lookupKeycode, h1, h2, if_true, if_false, and_self]
    · simp only [lookupKeycode, h1, h2, if_false]
      omega

/-- C19: every table access of the lookup in `KeyboardCallback` reads index
`scancode - 1` for the final `scancode`, which is positive, and the index is
below `N - 1` for a table of `N` entries: the read is in bounds and the last
entry (index `N - 1`) is never read.  At most one entry is read, and the
retried code is always in 0x80..0xFF. -/
theorem C19_lookup_in_bounds (table : List Nat) (s : Nat) :
    (lookupKeycode table s).reads.all (fun i => decide (i + 1 < table.length)) = true ∧
    ((lookupKeycode table s).reads = [] ∨
      ((lookupKeycode table s).reads = [(lookupKeycode table s).scancode - 1] ∧
        0 < (lookupKeycode table s).scancode ∧
        (lookupKeycode table s).scancode < table.length)) ∧
    ((lookupKeycode table s).tried.drop 1).all
      (fun r => decide (0x80 ≤ r ∧ r ≤ 0xFF)) = true ∧
    table.length - 1 ∉ (lookupKeycode table s).reads := by
  have hr := retry_code_range s
  by_cases h1 : s > 0 ∧ s < table.length
  · have : s - 1 + 1 < table.length := by omega
    have hne : ¬ table.length - 1 = s - 1 := by omega
    simp [lookupKeycode, h1, this, hne]
  · by_cases h2 : u8 (s ||| 0x80) > 0 ∧ u8 (s ||| 0x80) < table.length
    · have : u8 (s ||| 0x80) - 1 + 1 < table.length := by omega
      have hne : ¬ table.length - 1 = u8 (s ||| 0x80) - 1 := by omega
      simp only [lookupKeycode, h1, h2, if_true, if_false, and_self]
      simp [this, hne, hr.1, hr.2, h2.1, h2.2]
    · simp only [lookupKeycode, h1, h2, if_false]
      simp [hr.1, hr.2]

theorem keyModifierStep_no_key (f : Nat) (st : List Nat) (m : Nat) (c : KeyCall) :
    (keyModifierStep f st m c).2.filterMap Event.keyRepeat? = [] ∧
    (keyModifierStep f st m c).2.filterMap Event.keycode? = [] := by
  unfold keyModifierStep
  split_ifs <;> simp [Event.keyRepeat?, Event.keycode?]

/-- The tail of `KeyboardCallback` for a non-zero `scancode`: the counter
and what the key message carries as key code and repeat count. -/
theorem keyEventStep_pos (env : KeyEnv) (s : KeyState) (sc kc : Nat) (c : KeyCall)
    (h : 0 < sc) :
    (keyEventStep env s sc kc c).1.repeatCount
      = (if (env.GetChars kc s.fModifiers).length > 0 then
          (if c.isKeyDown = true ∧ c.isKeyRepeat = true then u32 (s.repeatCount + 1) else 1)
         else s.repeatCount) ∧
    (keyEventStep env s sc kc c).2.filterMap Event.keyRepeat?
      = (if (env.GetChars kc s.fModifiers).length > 0 ∧ c.isKeyDown = true ∧
            c.isKeyRepeat = true
          then [u32 (s.repeatCount + 1)] else []) ∧
    (keyEventStep env s sc kc c).2.filterMap Event.keycode? = [kc] := by
  have hsc : ¬ sc = 0 := by omega
  by_cases hn : (env.GetChars kc s.fModifiers).length > 0
  · by_cases hd : c.isKeyDown = true ∧ c.isKeyRepeat = true
    · simp [keyEventStep, hsc, hn, hd, Event.keyRepeat?, Event.keycode?]
    · simp [keyEventStep, hsc, hn, hd, Event.keyRepeat?, Event.keycode?]
  · simp [keyEventStep, hsc, hn, Event.keyRepeat?, Event.keycode?]

/-- C14 (counterexample): key code 0x12 resolves to a character, key codes
0x01 and 0x13 do not.  After a key-down of 0x12 and two repeats the counter is
3.  A key-up of 0x01 then leaves it at 3 instead of resetting it to 1, and a
repeat key-down of 0x13 neither increments it nor attaches it. -/
theorem C14_counterexample :
    (keyRun charKeyEnv (KeyState.init 0)
      [keyCall 2 true false, keyCall 2 true true, keyCall 2 true true]).repeatCount = 3 ∧
    (KeyboardCallback charKeyEnv
      (keyRun charKeyEnv (KeyState.init 0)
        [keyCall 2 true false, keyCall 2 true true, keyCall 2 true true])
      (keyCall 1 false false)).1.repeatCount = 3 ∧
    (KeyboardCallback charKeyEnv
      (keyRun charKeyEnv (KeyState.init 0)
        [keyCall 2 true false, keyCall 2 true true, keyCall 2 true true])
      (keyCall 3 true true)).1.repeatCount = 3 ∧
    (KeyboardCallback charKeyEnv
      (keyRun charKeyEnv (KeyState.init 0)
        [keyCall 2 true false, keyCall 2 true true, keyCall 2 true true])
      (keyCall 3 true true)).2.filterMap Event.keyRepeat? = [] := by
  decide

/-- C14 (amended): when the key resolves to characters under the modifiers in
force (`numBytes > 0`), a call that is key-down and marked repeat increments
the repeat counter and attaches the new value to the key message, and every
other call (a non-repeat key-down or a key-up) resets the counter to 1 and
attaches nothing.  When the key resolves to no characters the counter is left
as it is and nothing is attached.  The increment is by exactly 1 as long as
the counter stays below 2^32. -/
theorem C14_repeat_counter (env : KeyEnv) (s : KeyState) (c : KeyCall) :
    (KeyboardCallback env s c).1.repeatCount
      = (if (env.GetChars (c.keycode env) (KeyboardCallback env s c).1.fModifiers).length > 0
          then (if c.isKeyDown = true ∧ c.isKeyRepeat = true then u32 (s.repeatCount + 1) else 1)
          else s.repeatCount) ∧
    (KeyboardCallback env s c).2.filterMap Event.keyRepeat?
      = (if (env.GetChars (c.keycode env) (KeyboardCallback env s c).1.fModifiers).length > 0 ∧
            c.isKeyDown = true ∧ c.isKeyRepeat = true
          then [u32 (s.repeatCount + 1)] else []) ∧
    (s.repeatCount + 1 < 2 ^ 32 → u32 (s.repeatCount + 1) = s.repeatCount + 1) := by
  have hpos := lookupKeycode_scancode_pos (selectedTable env) c.scancode
  have hmods : (KeyboardCallback env s c).1.fModifiers
      = (keyModifierStep s.fModifiers
          (updateStates s.states (lookupKeycode (selectedTable env) c.scancode).keycode
            c.isKeyDown)
          (localModifiers env.keys c._modifiers) c).1 := by
    simp only [KeyboardCallback]
    rw [(keyEventStep_not_modifiers _ _ _ _ _).2.1]
  rw [hmods]
  refine ⟨?_, ?_, fun h => Nat.mod_eq_of_lt h⟩
  · simp only [KeyboardCallback, KeyCall.keycode]
    rw [(keyEventStep_pos env _ _ _ c hpos).1]
  · simp only [KeyboardCallback, KeyCall.keycode, List.filterMap_append,
      (keyModifierStep_no_key _ _ _ _).1, List.nil_append]
    rw [(keyEventStep_pos env _ _ _ c hpos).2.1]

/-- C14 (witness): the second repeat of a resolving key carries the count 3. -/
theorem C14_repeat_counter_witness :
    ((keyRun charKeyEnv (KeyState.init 0)
        [keyCall 2 true false, keyCall 2 true true]).repeatCount + 1 < 2 ^ 32) ∧
    u32 ((keyRun charKeyEnv (KeyState.init 0)
        [keyCall 2 true false, keyCall 2 true true]).repeatCount + 1) = 3 ∧
    (KeyboardCallback charKeyEnv
      (keyRun charKeyEnv (KeyState.init 0) [keyCall 2 true false, keyCall 2 true true])
      (keyCall 2 true true)).2.filterMap Event.keyRepeat? = [3] := by
  refine ⟨by decide, ?_, by decide⟩
  rw [(C14_repeat_counter charKeyEnv
    (keyRun charKeyEnv (KeyState.init 0) [keyCall 2 true false, keyCall 2 true true])
    (keyCall 2 true true)).2.2 (by decide)]
  decide

/-- The key code of the lookup in terms of the table's entries. -/
theorem lookupKeycode_keycode (table : List Nat) (s : Nat) :
    (lookupKeycode table s).keycode
      = (if 0 < s ∧ s < table.length then table.getD (s - 1) 0
         else if 0 < (s ||| 0x80) % 256 ∧ (s ||| 0x80) % 256 < table.length then
           table.getD ((s ||| 0x80) % 256 - 1) 0
         else 0) := by
  by_cases h1 : 0 < s ∧ s < table.length
  · simp [lookupKeycode, h1]
  · by_cases h2 : 0 < (s ||| 0x80) % 256 ∧ (s ||| 0x80) % 256 < table.length
    · simp [lookupKeycode, u8, h1, h2]
    · simp [lookupKeycode, u8, h1, h2]

/-- C15: every call emits one key message, and the key code it carries is read
from the X11 table when the configured `server_keymap` string is exactly `X11`
and from the default AT table for every other string: it is the entry at
`scancode - 1` of that table when the scan code is within its bounds, else the
entry for the low 8 bits of `scancode OR 0x80` when that is within its bounds,
else 0.  The other table plays no part.  The empty string and `x11` select the
AT table; with tables that differ at scan code 2, `X11` yields key code 0x02
and the strings `x11` and the empty string yield 0x12. -/
theorem C15_table_selection (env : KeyEnv) (s : KeyState) (c : KeyCall) :
    (KeyboardCallback env s c).2.filterMap Event.keycode?
      = [if env.fServerKeymap = "X11" then
          (if 0 < c.scancode ∧ c.scancode < env.kXKeycodeMap.length then
            env.kXKeycodeMap.getD (c.scancode - 1) 0
           else if 0 < (c.scancode ||| 0x80) % 256 ∧
               (c.scancode ||| 0x80) % 256 < env.kXKeycodeMap.length then
            env.kXKeycodeMap.getD ((c.scancode ||| 0x80) % 256 - 1) 0
           else 0)
         else
          (if 0 < c.scancode ∧ c.scancode < env.kATKeycodeMap.length then
            env.kATKeycodeMap.getD (c.scancode - 1) 0
           else if 0 < (c.scancode ||| 0x80) % 256 ∧
               (c.scancode ||| 0x80) % 256 < env.kATKeycodeMap.length then
            env.kATKeycodeMap.getD ((c.scancode ||| 0x80) % 256 - 1) 0
           else 0)] ∧
    selectedTable { env with fServerKeymap := "X11" } = env.kXKeycodeMap ∧
    selectedTable { env with fServerKeymap := "" } = env.kATKeycodeMap ∧
    selectedTable { env with fServerKeymap := "x11" } = env.kATKeycodeMap ∧
    (KeyboardCallback (twoTableEnv "X11") (KeyState.init 0) (keyCall 2 true false)).2.filterMap
      Event.keycode? = [0x02] ∧
    (KeyboardCallback (twoTableEnv "x11") (KeyState.init 0) (keyCall 2 true false)).2.filterMap
      Event.keycode? = [0x12] ∧
    (KeyboardCallback (twoTableEnv "") (KeyState.init 0) (keyCall 2 true false)).2.filterMap
      Event.keycode? = [0x12] := by
  have hpos := lookupKeycode_scancode_pos (selectedTable env) c.scancode
  refine ⟨?_, by simp [selectedTable], by simp [selectedTable], by simp [selectedTable],
    by decide, by decide, by decide⟩
  simp only [KeyboardCallback, List.filterMap_append, (keyModifierStep_no_key _ _ _ _).2,
    List.nil_append]
  rw [(keyEventStep_pos env _ _ _ c hpos).2.2, lookupKeycode_keycode]
  unfold selectedTable
  split <;> rfl

/-! ## The supervisor state machine -/

/-- The three outcomes of `Start`: nothing happens, the spawn fails, or a
worker is spawned. -/
theorem Start_cases (d : Device) (env : StartEnv) :
    Start d env = { status := B_OK, device := d, spawned := false } ∨
    (d.threadActive = false ∧ env.spawnResult < 0 ∧
      Start d env = { status := env.spawnResult,
                      device := { d with uBarrierThread := env.spawnResult },
                      spawned := false }) ∨
    (d.threadActive = false ∧ 0 ≤ env.spawnResult ∧
      Start d env = { status := env.resumeResult,
                      device := { d with threadActive := true,
                                         uBarrierThread := env.spawnResult,
                                         watching := true },
                      spawned := true }) := by
  obtain ⟨flag, thread, enabled, address, keymap, client, update, socket, watching⟩ := d
  by_cases h1 : address.length = 0 ∨ enabled = false
  · left
    simp [Start, h1]
  · cases flag with
    | true =>
      left
      simp [Start, h1]
    | false =>
      right
      by_cases h3 : env.spawnResult < 0
      · left
        simp [Start, h1, h3]
      · right
        have h3' : 0 ≤ env.spawnResult := by omega
        simp [Start, h1, h3, h3']

theorem Start_spawned_flag (d : Device) (env : StartEnv)
    (h : (Start d env).spawned = true) : d.threadActive = false := by
  rcases Start_cases d env with hc | hc | hc
  · rw [hc] at h; cases h
  · exact hc.1
  · exact hc.1

theorem erase_length_le_one (l : List Int) (t : Int) (h : l.length ≤ 1) :
    (l.erase t).length ≤ 1 :=
  le_trans (List.length_erase_le t l) h

/-- A step from a state with at most one live worker, where a `Start` step is
only taken with the flag set or no worker alive, leaves at most one. -/
theorem Machine.step_le_one (m : Machine) (st : Step) (h : m.live.length ≤ 1)
    (hs : match st with
      | .start _ => m.device.threadActive = true ∨ m.live = []
      | _ => True) :
    (m.step st).live.length ≤ 1 := by
  cases st with
  | start env =>
    simp only [Machine.step]
    cases hsp : (Start m.device env).spawned with
    | false => simpa using h
    | true =>
      have hf := Start_spawned_flag m.device env hsp
      rcases hs with hs | hs
      · rw [hf] at hs; cases hs
      · simp [hs]
  | stop =>
    simp only [Machine.step]
    split
    · exact erase_length_le_one _ _ h
    · exact h
  | systemShuttingDown => exact h
  | workerExit t =>
    simp only [Machine.step]
    split
    · exact erase_length_le_one _ _ h
    · exact h

theorem Machine.run_le_one (tr : List Step) :
    ∀ (m : Machine), m.live.length ≤ 1 → safeStarts m tr → (m.run tr).live.length ≤ 1 := by
  induction tr with
  | nil => intro m h _; exact h
  | cons st rest ih =>
    intro m h hs
    exact ih (m.step st) (Machine.step_le_one m st h hs.1) hs.2

/-- Without `SystemShuttingDown`, a step keeps the machine invariant. -/
theorem MachineInv_step (m : Machine) (st : Step) (h : MachineInv m)
    (hst : st.isShutdown = false) : MachineInv (m.step st) := by
  obtain ⟨dev, live⟩ := m
  unfold MachineInv at h ⊢
  simp only at h
  cases st with
  | start env =>
    simp only [Machine.step]
    rcases Start_cases dev env with hc | hc | hc
    · rw [hc]
      exact h
    · rw [hc.2.2]
      left
      rcases h with h | h
      · exact h
      · rw [hc.1] at h; cases h.1
    · rw [hc.2.2]
      right
      rcases h with h | h
      · subst h
        exact ⟨rfl, rfl, hc.2.1⟩
      · rw [hc.1] at h; cases h.1
  | stop =>
    simp only [Machine.step]
    left
    rcases h with h | h
    · subst h
      simp [Machine.exitWorker]
    · obtain ⟨_, h2, h3⟩ := h
      subst h2
      simp [Machine.exitWorker, h3]
  | systemShuttingDown => simp [Step.isShutdown] at hst
  | workerExit t =>
    simp only [Machine.step]
    split
    · rename_i hc
      rcases h with h | h
      · subst h
        simp at hc
      · rw [h.1] at hc
        simp at hc
    · exact h

theorem MachineInv_run (tr : List Step) :
    ∀ (m : Machine), MachineInv m → tr.all (fun st => !st.isShutdown) = true →
      MachineInv (m.run tr) ∧ safeStarts m tr := by
  induction tr with
  | nil => intro m h _; exact ⟨h, trivial⟩
  | cons st rest ih =>
    intro m h hall
    simp only [List.all_cons, Bool.and_eq_true, Bool.not_eq_true'] at hall
    have hstep := MachineInv_step m st h hall.1
    have hrest := ih (m.step st) hstep (by simpa using hall.2)
    refine ⟨hrest.1, ?_, hrest.2⟩
    cases st with
    | start env =>
      rcases h with h | h
      · exact Or.inr h
      · exact Or.inl h.1
    | stop => trivial
    | systemShuttingDown => trivial
    | workerExit t => trivial

/-- C16 (counterexample): `Start` spawns worker 9; `SystemShuttingDown` clears
the flag while worker 9 is still alive; the next `Start` finds the flag clear
and spawns worker 11, so two workers are alive. -/
theorem C16_counterexample :
    (Machine.run (Machine.initial (sampleDevice false))
      [Step.start (StartEnv.mk 9 0), Step.systemShuttingDown]).live = [9] ∧
    (Machine.run (Machine.initial (sampleDevice false))
      [Step.start (StartEnv.mk 9 0), Step.systemShuttingDown]).device.threadActive = false ∧
    (Machine.run (Machine.initial (sampleDevice false))
      [Step.start (StartEnv.mk 9 0), Step.systemShuttingDown,
       Step.start (StartEnv.mk 11 0)]).live = [11, 9] := by
  decide

/-- C16 (amended): starting from the stopped state with no worker, every
state reached by a sequence of Start, Stop, SystemShuttingDown and worker-exit
steps has at most one live worker, provided each Start step is taken with the
running flag set or with no worker alive.  That proviso holds for every
sequence without a SystemShuttingDown step, so every state reachable by Start,
Stop and worker-exit alone has at most one live worker. -/
theorem C16_at_most_one_worker (d : Device) (tr : List Step) :
    (safeStarts (Machine.initial d) tr →
      ((Machine.initial d).run tr).live.length ≤ 1) ∧
    (tr.all (fun st => !st.isShutdown) = true →
      safeStarts (Machine.initial d) tr ∧ ((Machine.initial d).run tr).live.length ≤ 1) := by
  have hinit : MachineInv (Machine.initial d) := Or.inl rfl
  refine ⟨fun hs => Machine.run_le_one tr _ (by simp [Machine.initial]) hs, ?_⟩
  intro hall
  have h := MachineInv_run tr _ hinit hall
  exact ⟨h.2, Machine.run_le_one tr _ (by simp [Machine.initial]) h.2⟩

/-- C16 (witness): Start, Stop and Start again leave only the second worker. -/
theorem C16_at_most_one_worker_witness :
    ([Step.start (StartEnv.mk 9 0), Step.stop, Step.start (StartEnv.mk 11 0)].all
        (fun st => !st.isShutdown) = true) ∧
    ((Machine.initial (sampleDevice false)).run
      [Step.start (StartEnv.mk 9 0), Step.stop, Step.start (StartEnv.mk 11 0)]).live.length ≤ 1 ∧
    ((Machine.initial (sampleDevice false)).run
      [Step.start (StartEnv.mk 9 0), Step.stop, Step.start (StartEnv.mk 11 0)]).live = [11] :=
  ⟨by decide,
   ((C16_at_most_one_worker (sampleDevice false)
      [Step.start (StartEnv.mk 9 0), Step.stop, Step.start (StartEnv.mk 11 0)]).2
        (by decide)).2,
   by decide⟩

end UBarrier
